import Mathlib

/-!
Verification development for the alert-manager reconciliation engine.

Shallow embedding of the matching algorithm in
`backend/app/services/jsm_service.py` and the synchronization
orchestration in `backend/app/services/alert_service.py`, together with
the configuration constants of `backend/app/core/config.py`.

Conventions of the embedding:
* Python `str` fields read with `dict.get(key, '')` are total `String`
  fields (an absent key behaves as the empty string, which is falsy in
  Python exactly as `""` is treated here).
* Fields read with `dict.get(key)` (default `None`) are `Option` fields.
* Timestamps are pre-parsed epoch seconds (`Option Int`); a missing or
  malformed timestamp is `none` (the code catches the parse exception
  and contributes nothing in that case).
* The Python float threshold (default `30.0`) is an exact natural
  number; the integer scores of the matcher make the comparison
  `score > threshold` identical for the default value.
-/

namespace AlertManager

/-! String helpers mirroring the Python primitives used by the service.
They are written by structural recursion over `List Char` (rather than
through the corresponding core `String` functions) so that every
definition evaluates on concrete inputs. -/

/-- `needle` is a leading segment of `hay`. -/
def leadMatch : List Char → List Char → Bool
  | [], _ => true
  | _ :: _, [] => false
  | a :: as, b :: bs => a = b && leadMatch as bs

/-- Substring search over character lists. -/
def hasSub (needle : List Char) : List Char → Bool
  | [] => leadMatch needle []
  | c :: cs => leadMatch needle (c :: cs) || hasSub needle cs

/-- Python `needle in hay` (substring containment; an empty needle is
always contained). -/
def strContains (hay needle : String) : Bool :=
  hasSub needle.data hay.data

/-- Python `s.lower()`. -/
def lowerStr (s : String) : String :=
  ⟨s.data.map Char.toLower⟩

/-- Python `s.strip()`. -/
def pyStrip (s : String) : String :=
  ⟨((s.data.dropWhile Char.isWhitespace).reverse.dropWhile
      Char.isWhitespace).reverse⟩

/-- Python `s.startswith(pat)`. -/
def startsWithStr (pat s : String) : Bool :=
  leadMatch pat.data s.data

/-- Everything after the first colon (`s.split(':', 1)[1]`; only used on
strings that contain a colon). -/
def afterColon : List Char → List Char
  | [] => []
  | c :: cs => if c = ':' then cs else afterColon cs

def splitColon1 (s : String) : String :=
  ⟨afterColon s.data⟩

/-- Maximal runs of characters not satisfying `p` (Python `s.split()`
semantics: separators collapse, no empty pieces). -/
def wordsByAux (p : Char → Bool) : List Char → List Char → List (List Char)
  | [], acc => if acc.isEmpty then [] else [acc.reverse]
  | c :: cs, acc =>
    if p c then
      if acc.isEmpty then wordsByAux p cs [] else acc.reverse :: wordsByAux p cs []
    else wordsByAux p cs (c :: acc)

def wordsBy (p : Char → Bool) (cs : List Char) : List (List Char) :=
  wordsByAux p cs []

/-- Python `s.split()`: split on whitespace runs, no empty pieces. -/
def pySplit (s : String) : List String :=
  (wordsBy Char.isWhitespace s.data).map List.asString

/-- Python `s.split(sep)` for a single-character separator (empty pieces
are kept). -/
def splitCharAux (sep : Char) : List Char → List Char → List (List Char)
  | [], acc => [acc.reverse]
  | c :: cs, acc =>
    if c = sep then acc.reverse :: splitCharAux sep cs []
    else splitCharAux sep cs (c :: acc)

def splitChar (sep : Char) (s : String) : List String :=
  (splitCharAux sep s.data []).map List.asString

/-- Python `\w` word characters: alphanumeric or underscore. -/
def isWordChar (c : Char) : Bool :=
  c.isAlphanum || c = '_'

/-- Case-insensitive check that `cs` starts with the (lowercase) literal
`pat`, as done by `re.IGNORECASE` literal matching. -/
def lcStartsWith (pat : List Char) (cs : List Char) : Bool :=
  (cs.take pat.length).map Char.toLower = pat

/-! Miniature matchers for the fixed regular expressions of
`jsm_service.py`, implemented over `List Char` with Python `re.search`
semantics (leftmost match, greedy with backtracking). -/

/-- Attempt of `Alert:\s*([^\s\n]+)` (IGNORECASE) at the head of `cs`. -/
def matchAlertPatAt (cs : List Char) : Option String :=
  if lcStartsWith "alert:".toList cs then
    let rest := (cs.drop 6).dropWhile Char.isWhitespace
    let cap := rest.takeWhile (fun c => ¬ c.isWhitespace)
    if cap.isEmpty then none else some cap.asString
  else none

/-- Character class `[:\s=]` of the `alertname`/`cluster` patterns. -/
def sepCharB (c : Char) : Bool :=
  c = ':' || c = '=' || c.isWhitespace

/-- Character class `[^\s\n,]` of the `alertname`/`cluster` patterns. -/
def capCharB (c : Char) : Bool :=
  ¬ c.isWhitespace && c ≠ ','

/-- Backtracking step of `[:\s=]+([^\s\n,]+)`: `sepRev` is the reversed
separator run still consumed by `[:\s=]+`; at least one separator char
must stay consumed.  The greedy engine first tries to capture after the
whole run and then gives back separator characters one at a time. -/
def btCaptureB : List Char → List Char → Option (List Char)
  | sepRev, tl =>
    let cap := tl.takeWhile capCharB
    if ¬ cap.isEmpty then some cap
    else
      match sepRev with
      | [] => none
      | [_] => none
      | c :: rest => btCaptureB rest (c :: tl)

/-- Attempt of `lit[:\s=]+([^\s\n,]+)` (IGNORECASE, `lit` lowercase) at
the head of `cs`. -/
def matchPatBAt (lit : List Char) (cs : List Char) : Option String :=
  if lcStartsWith lit cs then
    let rest := cs.drop lit.length
    let sep := rest.takeWhile sepCharB
    let tl := rest.dropWhile sepCharB
    if sep.isEmpty then none
    else
      match btCaptureB sep.reverse tl with
      | some cap => some cap.asString
      | none => none
  else none

/-- Attempt of `\*([^*]+)\*` at the head of `cs`. -/
def matchStarAt (cs : List Char) : Option String :=
  match cs with
  | '*' :: rest =>
    let cap := rest.takeWhile (· ≠ '*')
    if cap.isEmpty then none
    else
      match rest.drop cap.length with
      | '*' :: _ => some cap.asString
      | _ => none
  | _ => none

/-- Character class `[^-\s]` of the `datanode`/`cloud` patterns. -/
def capCharDash (c : Char) : Bool :=
  c ≠ '-' && ¬ c.isWhitespace

/-- Attempt of `datanode-\d+-([^-\s]+)` (IGNORECASE) at the head of `cs`. -/
def matchDatanodeAt (cs : List Char) : Option String :=
  if lcStartsWith "datanode-".toList cs then
    let rest := cs.drop 9
    let digits := rest.takeWhile Char.isDigit
    if digits.isEmpty then none
    else
      match rest.drop digits.length with
      | '-' :: rest2 =>
        let cap := rest2.takeWhile capCharDash
        if cap.isEmpty then none else some cap.asString
      | _ => none
  else none

/-- Attempt of `([^-\s]+)-cloud-` (IGNORECASE) at the head of `cs`. -/
def matchCloudAt (cs : List Char) : Option String :=
  let cap := cs.takeWhile capCharDash
  if cap.isEmpty then none
  else if lcStartsWith "-cloud-".toList (cs.drop cap.length) then some cap.asString
  else none

/-- `re.search`: try the position matcher at every position, leftmost
match wins. -/
def searchPat (m : List Char → Option String) : List Char → Option String
  | [] => none
  | c :: cs =>
    match m (c :: cs) with
    | some r => some r
    | none => searchPat m cs

/-! Data model.  `GrafanaAlert` is the RecordA dictionary as consumed by
the engine (`alert_id`, `alert_name`, `cluster`, `severity`, `summary`,
`started_at`, `labels` are the keys the engine reads; further keys are
copied verbatim by the merge and are omitted here).  `JsmAlert` is the
RecordB dictionary with the keys read by the engine. -/

structure GrafanaAlert where
  alert_id : String
  alert_name : String
  cluster : String
  severity : String
  summary : String
  started_at : Option Int
  labels : List (String × String)
deriving DecidableEq, Repr

structure JsmAlert where
  id : String
  tinyId : Option String
  status : String
  acknowledged : Bool
  owner : String
  priority : String
  «alias» : String
  tags : List String
  message : String
  createdAt : Option Int
  updatedAt : Option Int
  lastOccurredAt : Option Int
  count : Nat
  integrationName : String
  source : String
deriving DecidableEq, Repr

/-- Python `dict.get(key, '')` on the labels map of a Grafana alert. -/
def labelGet (g : GrafanaAlert) (key : String) : String :=
  match g.labels.find? (fun p => p.1 = key) with
  | some p => p.2
  | none => ""

/-! `JSMService.extract_alert_name_from_jsm`. -/

/-- Message strategies of `extract_alert_name_from_jsm`: the three
regex patterns, tried in order, first match returned (`.strip()`ed). -/
def alertNameFromMessage (msg : String) : Option String :=
  match searchPat matchAlertPatAt msg.toList with
  | some r => some (pyStrip r)
  | none =>
    match searchPat (matchPatBAt "alertname".toList) msg.toList with
    | some r => some (pyStrip r)
    | none =>
      match searchPat matchStarAt msg.toList with
      | some r => some (pyStrip r)
      | none => none

def extract_alert_name_from_jsm (j : JsmAlert) : String :=
  match j.tags.find? (fun tag => startsWithStr "alertname:" tag) with
  | some tag => pyStrip (splitColon1 tag)
  | none =>
    match (if j.message ≠ "" then alertNameFromMessage j.message else none) with
    | some r => r
    | none =>
      if j.«alias» ≠ "" then "jsm-" ++ j.«alias».take 20
      else
        "jsm-alert-" ++ (match j.tinyId with | some t => t | none => j.id)

/-! `JSMService.extract_cluster_from_jsm`. -/

/-- Inner loop over `instance.split('-')`: first `parts[i] = "cloud"`
with `i > 0` yields `'-'.join(parts[:i])`. -/
def clusterFromCloudParts : List String → Nat → List String → Option String
  | [], _, _ => none
  | p :: rest, i, acc =>
    if p = "cloud" ∧ i > 0 then some (String.intercalate "-" acc.reverse)
    else clusterFromCloudParts rest (i + 1) (p :: acc)

/-- Tag loop of `extract_cluster_from_jsm`: a tag containing `cluster`
(case-insensitively) and a colon returns its value; otherwise a tag
containing `instance:` is inspected for an embedded `-cloud-` name. -/
def clusterFromTags : List String → Option String
  | [] => none
  | tag :: rest =>
    if strContains (lowerStr tag) "cluster" ∧ strContains tag ":" then
      some (pyStrip (splitColon1 tag))
    else if strContains tag "instance:" then
      let inst := splitColon1 tag
      if strContains inst "-cloud-" then
        match clusterFromCloudParts (splitChar '-' inst) 0 [] with
        | some r => some r
        | none => clusterFromTags rest
      else clusterFromTags rest
    else clusterFromTags rest

def extract_cluster_from_jsm (j : JsmAlert) : Option String :=
  match clusterFromTags j.tags with
  | some c => some c
  | none =>
    match searchPat (matchPatBAt "cluster".toList) j.message.toList with
    | some r => some (pyStrip r)
    | none =>
      match searchPat matchDatanodeAt j.message.toList with
      | some r => some (pyStrip r)
      | none =>
        match searchPat matchCloudAt j.message.toList with
        | some r => some (pyStrip r)
        | none => none

/-! `JSMService.extract_severity_from_jsm`. -/

/-- `priority_map.get(priority, 'unknown')`. -/
def priorityMap (p : String) : String :=
  if p = "P1" then "critical"
  else if p = "P2" then "warning"
  else if p = "P3" ∨ p = "P4" ∨ p = "P5" then "info"
  else "unknown"

/-- Tag loop of `extract_severity_from_jsm`. -/
def sevFromTags : List String → Option String
  | [] => none
  | tag :: rest =>
    if startsWithStr "severity:" tag then some (pyStrip (splitColon1 tag))
    else if startsWithStr "og_priority:" tag then
      some (priorityMap (pyStrip (splitColon1 tag)))
    else sevFromTags rest

def extract_severity_from_jsm (j : JsmAlert) : String :=
  match sevFromTags j.tags with
  | some s => s
  | none => if j.priority ≠ "" then priorityMap j.priority else "unknown"

/-! `JSMService._fuzzy_match` and `JSMService._get_common_words`. -/

def _fuzzy_match (s1 s2 : String) : Bool :=
  let clean1 := pyStrip ⟨s1.data.map (fun c => if c = '_' ∨ c = '-' then ' ' else c)⟩
  let clean2 := pyStrip ⟨s2.data.map (fun c => if c = '_' ∨ c = '-' then ' ' else c)⟩
  let words1 := (pySplit clean1).dedup
  let words2 := (pySplit clean2).dedup
  if words1.isEmpty ∨ words2.isEmpty then false
  else
    let common := words1.filter (· ∈ words2)
    -- similarity > 0.6 with similarity = |common| / max |words1| |words2|
    5 * common.length > 3 * max words1.length words2.length

/-- `re.findall(r'\b\w+\b', text.lower())` as a set. -/
def wordTokens (s : String) : List String :=
  ((wordsBy (fun c => ¬ isWordChar c) (lowerStr s).data).map List.asString).dedup

def skip_words : List String :=
  ["the", "a", "an", "and", "or", "but", "in", "on", "at", "to", "for",
   "of", "with", "by", "is", "are", "was", "were", "be", "been", "have",
   "has", "had", "do", "does", "did"]

def _get_common_words (t1 t2 : String) : List String :=
  let w1 := (wordTokens t1).filter (fun w => w.length > 2 ∧ w ∉ skip_words)
  let w2 := (wordTokens t2).filter (fun w => w.length > 2 ∧ w ∉ skip_words)
  w1.filter (· ∈ w2)

/-! `backend/app/core/config.py`: the configuration constants used by
the engine. -/

def ALERT_MATCH_CONFIDENCE_THRESHOLD : Nat := 30

def EXCLUDED_CLUSTERS : List String :=
  ["stage", "dev", "test", "staging", "development"]

def EXCLUDED_ENVIRONMENTS : List String :=
  ["devo-stage-eu", "staging", "development", "dev"]

/-! `JSMService.calculate_content_similarity_score`. -/

def calculate_content_similarity_score (g : GrafanaAlert) (j : JsmAlert) : Nat :=
  let jsm_alert_name := extract_alert_name_from_jsm j
  let jsm_cluster := extract_cluster_from_jsm j
  let jsm_severity := extract_severity_from_jsm j
  let jsm_message := lowerStr j.message
  let grafana_alert_name := lowerStr g.alert_name
  let grafana_cluster := lowerStr g.cluster
  let grafana_severity := lowerStr g.severity
  let grafana_summary := lowerStr g.summary
  -- Alert name matching (highest weight)
  let nameScore :=
    if grafana_alert_name ≠ "" ∧ jsm_alert_name ≠ "" then
      if strContains (lowerStr jsm_alert_name) grafana_alert_name
          || strContains grafana_alert_name (lowerStr jsm_alert_name) then 40
      else if _fuzzy_match grafana_alert_name (lowerStr jsm_alert_name) then 30
      else 0
    else 0
  -- Cluster matching
  let clusterScore :=
    match jsm_cluster with
    | some jc =>
      if grafana_cluster ≠ "" ∧ jc ≠ "" then
        if strContains (lowerStr jc) grafana_cluster
            || strContains grafana_cluster (lowerStr jc) then 25
        else 0
      else 0
    | none => 0
  -- Severity matching
  let severityScore :=
    if grafana_severity ≠ "" ∧ jsm_severity ≠ "" then
      if grafana_severity = lowerStr jsm_severity then 15 else 0
    else 0
  -- Content similarity
  let contentScore :=
    if grafana_summary ≠ "" ∧ jsm_message ≠ "" then
      let common_words := _get_common_words grafana_summary jsm_message
      if common_words.length > 2 then min 20 (common_words.length * 3) else 0
    else 0
  -- Time proximity
  let timeScore :=
    match g.started_at, j.createdAt with
    | some t1, some t2 =>
      let time_diff := (t1 - t2).natAbs
      if time_diff < 300 then 10
      else if time_diff < 900 then 5
      else if time_diff < 3600 then 2
      else 0
    | _, _ => 0
  -- Source bonus
  let sourceScore :=
    if j.source = "Grafana" ∨ j.integrationName = "Grafana" then 15 else 0
  min (nameScore + clusterScore + severityScore + contentScore
        + timeScore + sourceScore) 100

/-! SHA-256 over byte lists (for `create_alert_fingerprint`, which uses
`hashlib.sha256(...).hexdigest()[:16]`).  32-bit machine words are
naturals kept below `2 ^ 32`. -/

def w32 (n : Nat) : Nat := n % 4294967296

def rotr32 (x n : Nat) : Nat := w32 ((x >>> n) ||| (x <<< (32 - n)))

def sha256K : List Nat :=
  [1116352408, 1899447441, 3049323471, 3921009573, 961987163,
   1508970993, 2453635748, 2870763221, 3624381080, 310598401,
   607225278, 1426881987, 1925078388, 2162078206, 2614888103,
   3248222580, 3835390401, 4022224774, 264347078, 604807628,
   770255983, 1249150122, 1555081692, 1996064986, 2554220882,
   2821834349, 2952996808, 3210313671, 3336571891, 3584528711,
   113926993, 338241895, 666307205, 773529912, 1294757372,
   1396182291, 1695183700, 1986661051, 2177026350, 2456956037,
   2730485921, 2820302411, 3259730800, 3345764771, 3516065817,
   3600352804, 4094571909, 275423344, 430227734, 506948616,
   659060556, 883997877, 958139571, 1322822218, 1537002063,
   1747873779, 1955562222, 2024104815, 2227730452, 2361852424,
   2428436474, 2756734187, 3204031479, 3329325298]

def sha256InitH : List Nat :=
  [1779033703, 3144134277, 1013904242, 2773480762,
   1359893119, 2600822924, 528734635, 1541459225]

/-- `n` bytes of `val`, big-endian. -/
def beBytes (n : Nat) (val : Nat) : List Nat :=
  (List.range n).map (fun i => (val >>> (8 * (n - 1 - i))) % 256)

/-- SHA-256 padding: append `0x80`, zeros to 56 mod 64, then the
bit length as 8 big-endian bytes. -/
def sha256Pad (msg : List Nat) : List Nat :=
  let zeros := (64 + 56 - (msg.length + 1) % 64) % 64
  msg ++ [0x80] ++ List.replicate zeros 0 ++ beBytes 8 (8 * msg.length)

/-- Big-endian 32-bit words from bytes. -/
def toWords : List Nat → List Nat
  | b0 :: b1 :: b2 :: b3 :: rest =>
    ((b0 <<< 24) ||| (b1 <<< 16) ||| (b2 <<< 8) ||| b3) :: toWords rest
  | _ => []

def chunks64 (l : List Nat) : List (List Nat) :=
  if h : l = [] then []
  else l.take 64 :: chunks64 (l.drop 64)
termination_by l.length
decreasing_by
  simp only [List.length_drop]
  have := List.length_pos.2 h
  omega

/-- Message schedule: extend the 16 chunk words to 64. -/
def sha256Schedule (init16 : List Nat) : Array Nat :=
  (List.range 48).foldl
    (fun arr _i =>
      let n := arr.size
      let w15 := arr.getD (n - 15) 0
      let w2 := arr.getD (n - 2) 0
      let s0 := rotr32 w15 7 ^^^ rotr32 w15 18 ^^^ (w15 >>> 3)
      let s1 := rotr32 w2 17 ^^^ rotr32 w2 19 ^^^ (w2 >>> 10)
      arr.push (w32 (arr.getD (n - 16) 0 + s0 + arr.getD (n - 7) 0 + s1)))
    init16.toArray

def sha256Compress (hs : List Nat) (ws : Array Nat) : List Nat :=
  let final :=
    (List.range 64).foldl
      (fun (st : List Nat) i =>
        match st with
        | [a, b, c, d, e, f, g, h8] =>
          let bigS1 := rotr32 e 6 ^^^ rotr32 e 11 ^^^ rotr32 e 25
          let ch := (e &&& f) ^^^ ((e ^^^ 4294967295) &&& g)
          let temp1 := w32 (h8 + bigS1 + ch + sha256K.getD i 0 + ws.getD i 0)
          let bigS0 := rotr32 a 2 ^^^ rotr32 a 13 ^^^ rotr32 a 22
          let maj := (a &&& b) ^^^ (a &&& c) ^^^ (b &&& c)
          let temp2 := w32 (bigS0 + maj)
          [w32 (temp1 + temp2), a, b, c, w32 (d + temp1), e, f, g]
        | _ => st)
      hs
  (hs.zip final).map (fun p => w32 (p.1 + p.2))

def sha256Words (msg : List Nat) : List Nat :=
  (chunks64 (sha256Pad msg)).foldl
    (fun hs chunk => sha256Compress hs (sha256Schedule (toWords chunk)))
    sha256InitH

def hexChar (n : Nat) : Char :=
  if n < 10 then Char.ofNat (48 + n) else Char.ofNat (87 + n)

def word2hex (w : Nat) : String :=
  ((List.range 8).map (fun i => hexChar ((w >>> (4 * (7 - i))) % 16))).asString

/-- `hashlib.sha256(bytes).hexdigest()`. -/
def sha256HexDigest (msg : List Nat) : String :=
  String.join ((sha256Words msg).map word2hex)

/-! `JSMService.create_alert_fingerprint`. -/

def create_alert_fingerprint (g : GrafanaAlert) : String :=
  let fingerprint_data :=
    g.alert_name ++ "|" ++ g.cluster ++ "|" ++ g.severity ++ "|"
      ++ g.summary.take 50
  (sha256HexDigest (fingerprint_data.toUTF8.toList.map (fun b => b.toNat))).take 16

/-! `JSMService.match_grafana_with_jsm`. -/

structure MatchInfo where
  grafana_alert : GrafanaAlert
  jsm_alert : Option JsmAlert
  match_type : String
  match_confidence : Nat
deriving DecidableEq, Repr

/-- Score band of the inner loop: the match type recorded when a new
best score is found. -/
def scoreBand (score : Nat) : String :=
  if score ≥ 90 then "high_confidence"
  else if score ≥ 70 then "content_similarity"
  else "low_confidence"

/-- Body of the inner loop of `match_grafana_with_jsm`: skip
already-used ids, otherwise keep the candidate when its score strictly
beats the current best. -/
def bcStep (g : GrafanaAlert) (used : List String)
    (st : Nat × Option JsmAlert × String) (j : JsmAlert) :
    Nat × Option JsmAlert × String :=
  if j.id ∈ used then st
  else
    let score := calculate_content_similarity_score g j
    if score > st.1 then (score, some j, scoreBand score)
    else st

/-- Inner loop of `match_grafana_with_jsm`: fold over the JSM alerts,
tracking `(best_score, best_match, best_match_type)` with initial score
the configured threshold. -/
def bestCandidate (thr : Nat) (g : GrafanaAlert) (used : List String)
    (jsms : List JsmAlert) : Nat × Option JsmAlert × String :=
  jsms.foldl (bcStep g used) (thr, none, "none")

/-- Outer loop of `match_grafana_with_jsm`, with the `used_jsm_alerts`
set made explicit. -/
def matchAux (thr : Nat) (jsms : List JsmAlert) :
    List GrafanaAlert → List String → List MatchInfo
  | [], _ => []
  | g :: gs, used =>
    match bestCandidate thr g used jsms with
    | (score, some b, ty) =>
      ⟨g, some b, ty, score⟩ :: matchAux thr jsms gs (b.id :: used)
    | (_, none, _) =>
      ⟨g, none, "none", 0⟩ :: matchAux thr jsms gs used

def match_grafana_with_jsm (thr : Nat) (grafana_alerts : List GrafanaAlert)
    (jsm_alerts : List JsmAlert) : List MatchInfo :=
  matchAux thr jsm_alerts grafana_alerts []

/-! `backend/app/models/alert.py`: the persisted `Alert` row, restricted
to the fields the reconciliation engine reads or writes (`pod`,
`description`, `generator_url`, `annotations` and the unused legacy jira
issue fields are copied/ignored exactly like the included verbatim
fields and are omitted).  Nullable columns are `Option` fields;
timestamps are epoch seconds. -/

@[ext]
structure Alert where
  alert_id : String
  alert_name : String
  cluster : String
  severity : String
  summary : String
  started_at : Option Int
  labels : List (String × String)
  grafana_status : String
  jsm_alert_id : Option String
  jsm_tiny_id : Option String
  jsm_status : Option String
  jsm_acknowledged : Bool
  jsm_owner : Option String
  jsm_priority : Option String
  jsm_alias : Option String
  jsm_integration_name : Option String
  jsm_source : Option String
  jsm_count : Nat
  jsm_tags : List String
  jsm_created_at : Option Int
  jsm_updated_at : Option Int
  jsm_last_occurred_at : Option Int
  match_type : Option String
  match_confidence : Option Nat
  acknowledged_by : Option String
  acknowledged_at : Option Int
  resolved_by : Option String
  resolved_at : Option Int
  jira_status : String
  jira_assignee : Option String
  created_at : Int
  updated_at : Int
deriving DecidableEq, Repr

/-- Python truthiness of a nullable string column: `None` and `''` are
falsy. -/
def truthy : Option String → Bool
  | none => false
  | some s => s ≠ ""

/-! `AlertService` (`backend/app/services/alert_service.py`). -/

/-- `AlertService._sanitize_alert_data`: strings are stripped (`None`
becomes `""` for text fields, which the total-`String` model already
represents); non-string values are kept. -/
def _sanitize_alert_data (g : GrafanaAlert) : GrafanaAlert :=
  { g with
    alert_id := pyStrip g.alert_id
    alert_name := pyStrip g.alert_name
    cluster := pyStrip g.cluster
    severity := pyStrip g.severity
    summary := pyStrip g.summary }

/-- `AlertService._is_non_prod_alert`. -/
def _is_non_prod_alert (g : GrafanaAlert) : Bool :=
  let cluster := labelGet g "cluster"
  if strContains (lowerStr cluster) "stage" then true
  else
    let env := labelGet g "env"
    if env = "devo-stage-eu" then true
    else false

/-- `AlertService._map_jsm_to_jira_status`
(`mapping.get(jsm_status, 'open')`). -/
def _map_jsm_to_jira_status (jsm_status : String) : String :=
  if jsm_status = "open" then "open"
  else if jsm_status = "acked" then "acknowledged"
  else if jsm_status = "closed" then "resolved"
  else "open"

/-- `AlertService._update_jsm_fields`, with the
`JSMService.get_alert_status_info` projection inlined.  `mt`/`mc` are
`match_info['match_type']` / `match_info['match_confidence']` (nullable
when called from the orphan refresh). -/
def _update_jsm_fields (a : Alert) (j : JsmAlert) (mt : Option String)
    (mc : Option Nat) (now : Int) : Alert :=
  let jsm_created := match j.createdAt with | some t => some t | none => a.jsm_created_at
  let jsm_updated := match j.updatedAt with | some t => some t | none => a.jsm_updated_at
  let jsm_last := match j.lastOccurredAt with | some t => some t | none => a.jsm_last_occurred_at
  let ackStamp := j.acknowledged ∧ ¬ truthy a.acknowledged_by
  { a with
    jsm_alert_id := some j.id
    jsm_tiny_id := j.tinyId
    jsm_status := some j.status
    jsm_acknowledged := j.acknowledged
    jsm_owner := some j.owner
    jsm_priority := some j.priority
    jsm_alias := some j.«alias»
    jsm_integration_name := some j.integrationName
    jsm_source := some j.source
    jsm_count := j.count
    jsm_tags := j.tags
    match_type := mt
    match_confidence := mc
    jsm_created_at := jsm_created
    jsm_updated_at := jsm_updated
    jsm_last_occurred_at := jsm_last
    jira_status := _map_jsm_to_jira_status j.status
    jira_assignee := some j.owner
    acknowledged_by :=
      if ackStamp then some (if j.owner = "" then "JSM User" else j.owner)
      else a.acknowledged_by
    acknowledged_at :=
      if ackStamp then some (match jsm_updated with | some t => t | none => now)
      else a.acknowledged_at }

/-- The Grafana part of `_update_existing_alert`: `grafana_status`,
`updated_at`, then the reflection copy of the Grafana fields (which
touches exactly the modelled Grafana keys; `id` and `created_at` are
excluded by the source). -/
def copyGrafana (a : Alert) (g : GrafanaAlert) (now : Int) : Alert :=
  { a with
    grafana_status := "active"
    updated_at := now
    alert_id := g.alert_id
    alert_name := g.alert_name
    cluster := g.cluster
    severity := g.severity
    summary := g.summary
    started_at := g.started_at
    labels := g.labels }

/-- `AlertService._update_existing_alert`. -/
def _update_existing_alert (a : Alert) (g : GrafanaAlert) (j : Option JsmAlert)
    (mt : String) (mc : Nat) (now : Int) : Alert :=
  match j with
  | some jd => _update_jsm_fields (copyGrafana a g now) jd (some mt) (some mc) now
  | none =>
    { copyGrafana a g now with
      jsm_alert_id := none
      jsm_status := none
      match_type := some "none"
      match_confidence := some 0 }

/-- The base row of `_create_new_alert`: `Alert(**grafana_data,
grafana_status="active")` with the model/database defaults. -/
def newAlertBase (g : GrafanaAlert) (now : Int) : Alert :=
  { alert_id := g.alert_id
    alert_name := g.alert_name
    cluster := g.cluster
    severity := g.severity
    summary := g.summary
    started_at := g.started_at
    labels := g.labels
    grafana_status := "active"
    jsm_alert_id := none
    jsm_tiny_id := none
    jsm_status := none
    jsm_acknowledged := false
    jsm_owner := none
    jsm_priority := none
    jsm_alias := none
    jsm_integration_name := none
    jsm_source := none
    jsm_count := 1
    jsm_tags := []
    jsm_created_at := none
    jsm_updated_at := none
    jsm_last_occurred_at := none
    match_type := none
    match_confidence := none
    acknowledged_by := none
    acknowledged_at := none
    resolved_by := none
    resolved_at := none
    jira_status := "open"
    jira_assignee := none
    created_at := now
    updated_at := now }

/-- `AlertService._create_new_alert`: the base row, then the JSM fields
when matched. -/
def _create_new_alert (g : GrafanaAlert) (j : Option JsmAlert)
    (mt : String) (mc : Nat) (now : Int) : Alert :=
  match j with
  | some jd => _update_jsm_fields (newAlertBase g now) jd (some mt) (some mc) now
  | none =>
    { newAlertBase g now with
      match_type := some "none"
      match_confidence := some 0 }

/-- `db.query(Alert).filter(Alert.alert_id == id).first()` followed by a
mutation: update the first row with the given key. -/
def updateFirst (id : String) (f : Alert → Alert) : List Alert → List Alert
  | [] => []
  | a :: rest =>
    if a.alert_id = id then f a :: rest else a :: updateFirst id f rest

/-- One iteration of the merge loop of `AlertService.sync_alerts`:
sanitize, skip on missing `alert_id`, update-or-create. -/
def mergeOne (now : Int) (store : List Alert) (m : MatchInfo) : List Alert :=
  let g := _sanitize_alert_data m.grafana_alert
  if g.alert_id = "" then store
  else if store.any (fun a => a.alert_id = g.alert_id) then
    updateFirst g.alert_id
      (fun a => _update_existing_alert a g m.jsm_alert m.match_type m.match_confidence now)
      store
  else
    store ++ [_create_new_alert g m.jsm_alert m.match_type m.match_confidence now]

/-- The merge loop over all match results. -/
def mergeAll (now : Int) (matched : List MatchInfo) (store : List Alert) :
    List Alert :=
  matched.foldl (mergeOne now) store

/-- The `active_grafana_alert_ids` set collected during the merge loop. -/
def activeGrafanaAlertIds (matched : List MatchInfo) : List String :=
  matched.filterMap (fun m =>
    let id := (_sanitize_alert_data m.grafana_alert).alert_id
    if id = "" then none else some id)

/-- Row predicate of the `_mark_resolved_alerts` query:
`grafana_status == "active"` and `alert_id` not in the active set. -/
def shouldResolve (activeIds : List String) (a : Alert) : Bool :=
  a.grafana_status = "active" ∧ a.alert_id ∉ activeIds

/-- The close() call `_mark_resolved_alerts` attempts for a stale row:
present when the row has a (truthy) bound JSM id whose mirrored status
is not already `closed`. -/
def closeAttempt (a : Alert) : Option String :=
  match a.jsm_alert_id with
  | some jid => if jid ≠ "" ∧ a.jsm_status ≠ some "closed" then some jid else none
  | none => none

/-- Per-row body of `_mark_resolved_alerts`: mark resolved, then
best-effort close (`closeOk` is the boolean outcome of
`close_jsm_alert`, which itself swallows transport errors). -/
def resolveOne (closeOk : String → Bool) (now : Int) (a : Alert) : Alert :=
  let a1 := { a with grafana_status := "resolved" }
  match a1.jsm_alert_id with
  | some jid =>
    if jid ≠ "" ∧ a1.jsm_status ≠ some "closed" then
      if closeOk jid then
        let stamp := ¬ truthy a1.resolved_by
        { a1 with
          jsm_status := some "closed"
          resolved_by := if stamp then some "Auto-resolved (Grafana)" else a1.resolved_by
          resolved_at := if stamp then some now else a1.resolved_at }
      else a1
    else a1
  | none => a1

/-- Per-row action of the `_mark_resolved_alerts` query-plus-loop. -/
def resolveRow (activeIds : List String) (closeOk : String → Bool)
    (now : Int) (a : Alert) : Alert :=
  if shouldResolve activeIds a then resolveOne closeOk now a else a

/-- `AlertService._mark_resolved_alerts`: the updated store and the list
of JSM ids a close() was attempted on. -/
def _mark_resolved_alerts (activeIds : List String) (closeOk : String → Bool)
    (now : Int) (store : List Alert) : List Alert × List String :=
  (store.map (resolveRow activeIds closeOk now),
   (store.filter (shouldResolve activeIds)).filterMap closeAttempt)

/-- `jsm_alerts_by_id = {a['id']: a for a in jsm_alerts}`: later
entries overwrite earlier ones, so lookup finds the last occurrence. -/
def jsmById (jsms : List JsmAlert) (jid : String) : Option JsmAlert :=
  jsms.reverse.find? (fun j => j.id = jid)

/-- Per-row action of `_update_orphaned_jsm_alerts`. -/
def orphanRow (jsms : List JsmAlert) (now : Int) (a : Alert) : Alert :=
  match a.jsm_alert_id with
  | some jid =>
    match jsmById jsms jid with
    | some jd => _update_jsm_fields a jd a.match_type a.match_confidence now
    | none => a
  | none => a

/-- `AlertService._update_orphaned_jsm_alerts`. -/
def _update_orphaned_jsm_alerts (jsms : List JsmAlert) (now : Int)
    (store : List Alert) : List Alert :=
  store.map (orphanRow jsms now)

/-- `JSMService.get_jsm_alerts`: a transport failure (or missing cloud
id) is caught and an empty list is returned. -/
def get_jsm_alerts (fetch : Except String (List JsmAlert)) : List JsmAlert :=
  match fetch with
  | .ok v => v
  | .error _ => []

/-- `AlertService.sync_alerts` as a state transformer on the store.

The Source A connector (`grafana_service.get_active_alerts`) is not
among the sources.  Modelled from the spec: a Source A fetch failure
raises a `FetchError`, which propagates out of `sync_alerts` through
its outer `except` (rollback and re-raise) — represented by the
`Except.error` short-circuit leaving the store unmodified.  The Source B
fetch goes through `get_jsm_alerts` above, exactly as in the source.
`closeOk` gives the boolean outcome of each `close_jsm_alert` call.
Returns the committed store and the attempted close calls. -/
def sync_alerts (thr : Nat) (now : Int)
    (grafanaFetch : Except String (List GrafanaAlert))
    (jsmFetch : Except String (List JsmAlert))
    (closeOk : String → Bool) (store : List Alert) :
    Except String (List Alert × List String) :=
  match grafanaFetch with
  | .error e => .error e
  | .ok grafana_alerts =>
    let jsm_alerts := get_jsm_alerts jsmFetch
    let filtered := grafana_alerts.filter (fun g => ¬ _is_non_prod_alert g)
    let matched := match_grafana_with_jsm thr filtered jsm_alerts
    let merged := mergeAll now matched store
    let ids := activeGrafanaAlertIds matched
    let resolved := _mark_resolved_alerts ids closeOk now merged
    let final := _update_orphaned_jsm_alerts jsm_alerts now resolved.1
    .ok (final, resolved.2)

/-- The `used_jsm_alerts` set after the outer matching loop has
processed a given list of Grafana alerts. -/
def usedAfter (thr : Nat) (jsms : List JsmAlert) :
    List GrafanaAlert → List String → List String
  | [], used => used
  | g :: gs, used =>
    match bestCandidate thr g used jsms with
    | (_, some b, _) => usedAfter thr jsms gs (b.id :: used)
    | (_, none, _) => usedAfter thr jsms gs used

/-- The bound JSM id of a match result, when any. -/
def boundId (m : MatchInfo) : Option String :=
  m.jsm_alert.map (fun b => b.id)

/-- Exclusion policy as the specification words it (for comparison with
`_is_non_prod_alert`): the alert is dropped when its cluster or
environment label matches an entry of the configured denylists,
case-insensitively by substring or equality. -/
def specDenylistMatch (g : GrafanaAlert) : Bool :=
  EXCLUDED_CLUSTERS.any
    (fun e => strContains (lowerStr (labelGet g "cluster")) (lowerStr e))
  || EXCLUDED_ENVIRONMENTS.any
    (fun e => strContains (lowerStr (labelGet g "env")) (lowerStr e))

/-- The sanitized RecordA identifier of a match result, by which the
merge loop keys the store. -/
def sanitizedId (m : MatchInfo) : String :=
  (_sanitize_alert_data m.grafana_alert).alert_id

/-- The row update the merge loop performs for a match result. -/
def applyMatch (now : Int) (m : MatchInfo) (a : Alert) : Alert :=
  _update_existing_alert a (_sanitize_alert_data m.grafana_alert) m.jsm_alert
    m.match_type m.match_confidence now

/-- The row the merge loop creates for a match result whose identifier
is new. -/
def createOf (now : Int) (m : MatchInfo) : Alert :=
  _create_new_alert (_sanitize_alert_data m.grafana_alert) m.jsm_alert
    m.match_type m.match_confidence now

/-- The store written by one (successful) pass of `sync_alerts`. -/
def syncStore (thr : Nat) (now : Int) (gs : List GrafanaAlert)
    (js : List JsmAlert) (closeOk : String → Bool) (store : List Alert) :
    List Alert :=
  _update_orphaned_jsm_alerts js now
    (_mark_resolved_alerts
      (activeGrafanaAlertIds
        (match_grafana_with_jsm thr (gs.filter (fun g => ¬ _is_non_prod_alert g)) js))
      closeOk now
      (mergeAll now
        (match_grafana_with_jsm thr (gs.filter (fun g => ¬ _is_non_prod_alert g)) js)
        store)).1

/-! Concrete records used by counterexamples and witnesses. -/

/-- Scenario 1 RecordA of the specification. -/
def c1g : GrafanaAlert :=
  ⟨"g1", "high-cpu", "prod1", "critical", "CPU above threshold", none, []⟩

/-- A RecordB whose `alias` is exactly the fingerprint of `c1g` but
which shares no similarity signal with it. -/
def c1j : JsmAlert :=
  ⟨"j1", some "1", "open", false, "", "", create_alert_fingerprint c1g,
   ["alertname:unrelated-thing"], "", none, none, none, 1, "", ""⟩

/-- A RecordA/RecordB pair that matches by name containment (score 40). -/
def cg3 : GrafanaAlert := ⟨"g1", "high cpu", "", "", "", none, []⟩

def cj3 : JsmAlert :=
  ⟨"j1", some "t1", "open", false, "", "", "",
   ["alertname:high cpu"], "", none, none, none, 1, "", ""⟩

/-- A persisted row bound to JSM alert `j1` (status `open`), currently
active, whose RecordA identifier is `g1`. -/
def c5row : Alert :=
  { alert_id := "g1"
    alert_name := "high-cpu"
    cluster := "prod1"
    severity := "critical"
    summary := "CPU above threshold"
    started_at := none
    labels := []
    grafana_status := "active"
    jsm_alert_id := some "j1"
    jsm_tiny_id := some "1"
    jsm_status := some "open"
    jsm_acknowledged := false
    jsm_owner := some "alice"
    jsm_priority := some "P1"
    jsm_alias := some "x"
    jsm_integration_name := some "Grafana"
    jsm_source := some "Grafana"
    jsm_count := 2
    jsm_tags := []
    jsm_created_at := none
    jsm_updated_at := none
    jsm_last_occurred_at := none
    match_type := some "content_similarity"
    match_confidence := some 75
    acknowledged_by := none
    acknowledged_at := none
    resolved_by := none
    resolved_at := none
    jira_status := "open"
    jira_assignee := some "alice"
    created_at := 0
    updated_at := 0 }

/-- What a pass with a failed JSM fetch actually commits for `c5row`:
the JSM binding is cleared and the match reset, i.e. a mutation. -/
def c5exp : Alert :=
  { c5row with
    updated_at := 5
    jsm_alert_id := none
    jsm_status := none
    match_type := some "none"
    match_confidence := some 0 }

/-- A RecordA whose cluster label `dev` is on the configured denylist
(`EXCLUDED_CLUSTERS`) but is not dropped by the code. -/
def c8g : GrafanaAlert := ⟨"g2", "disk", "", "", "", none, [("cluster", "dev")]⟩

/-- Invariant of the inner matching loop state `(best_score, best_match,
best_match_type)`. -/
def BcInv (thr : Nat) (g : GrafanaAlert) (used : List String)
    (st : Nat × Option JsmAlert × String) : Prop :=
  thr ≤ st.1 ∧
  ∀ b, st.2.1 = some b →
    b.id ∉ used ∧ st.1 = calculate_content_similarity_score g b ∧
    thr < st.1 ∧ st.2.2 = scoreBand st.1

/-! Theorems.  First the lemma layer about the matcher. -/

theorem calc_score_le_100 (g : GrafanaAlert) (j : JsmAlert) :
    calculate_content_similarity_score g j ≤ 100 := by
  unfold calculate_content_similarity_score
  exact Nat.min_le_right _ _

theorem scoreBand_ne_none (s : Nat) : scoreBand s ≠ "none" := by
  unfold scoreBand
  split_ifs <;> decide

theorem bcStep_spec (thr : Nat) (g : GrafanaAlert) (used : List String)
    (st : Nat × Option JsmAlert × String) (j : JsmAlert)
    (h : BcInv thr g used st) :
    BcInv thr g used (bcStep g used st j) ∧
    st.1 ≤ (bcStep g used st j).1 ∧
    (∀ b, (bcStep g used st j).2.1 = some b → b = j ∨ st.2.1 = some b) ∧
    (j.id ∉ used →
      calculate_content_similarity_score g j ≤ (bcStep g used st j).1) ∧
    ((bcStep g used st j).2.1 = none → bcStep g used st j = st) := by
  obtain ⟨h1, h2⟩ := h
  by_cases hused : j.id ∈ used
  · simp only [bcStep, if_pos hused]
    exact ⟨⟨h1, h2⟩, le_refl _, fun b hb => Or.inr hb,
      fun hn => absurd hused hn, fun _ => by trivial⟩
  · by_cases hscore : calculate_content_similarity_score g j > st.1
    · simp only [bcStep, if_neg hused, if_pos hscore]
      refine ⟨⟨le_trans h1 (le_of_lt hscore), ?_⟩, le_of_lt hscore,
        ?_, fun _ => le_refl _, by simp⟩
      · intro b hb
        simp only [Option.some.injEq] at hb
        subst hb
        exact ⟨hused, rfl, lt_of_le_of_lt h1 hscore, rfl⟩
      · intro b hb
        simp only [Option.some.injEq] at hb
        exact Or.inl hb.symm
    · simp only [bcStep, if_neg hused, if_neg hscore]
      exact ⟨⟨h1, h2⟩, le_refl _, fun b hb => Or.inr hb,
        fun _ => le_of_not_lt hscore, fun _ => by trivial⟩

theorem bcFold_spec (thr : Nat) (g : GrafanaAlert) (used : List String) :
    ∀ (js : List JsmAlert) (st : Nat × Option JsmAlert × String),
      BcInv thr g used st →
      BcInv thr g used (js.foldl (bcStep g used) st) ∧
      st.1 ≤ (js.foldl (bcStep g used) st).1 ∧
      (∀ b, (js.foldl (bcStep g used) st).2.1 = some b →
        b ∈ js ∨ st.2.1 = some b) ∧
      (∀ j ∈ js, j.id ∉ used →
        calculate_content_similarity_score g j ≤ (js.foldl (bcStep g used) st).1) ∧
      ((js.foldl (bcStep g used) st).2.1 = none →
        js.foldl (bcStep g used) st = st)
  | [], st, h => ⟨h, le_refl _, by simp, by simp, fun _ => rfl⟩
  | j :: js, st, h => by
    rw [List.foldl_cons]
    obtain ⟨si, sle, smem, sscore, snone⟩ := bcStep_spec thr g used st j h
    obtain ⟨fi, fle, fmem, fscore, fnone⟩ := bcFold_spec thr g used js _ si
    refine ⟨fi, le_trans sle fle, ?_, ?_, ?_⟩
    · intro b hb
      rcases fmem b hb with hin | hst
      · exact Or.inl (List.mem_cons_of_mem _ hin)
      · rcases smem b hst with rfl | hst2
        · exact Or.inl (List.mem_cons_self _ _)
        · exact Or.inr hst2
    · intro j2 hj2 hid
      rcases List.mem_cons.1 hj2 with rfl | hin
      · exact le_trans (sscore hid) fle
      · exact fscore j2 hin hid
    · intro hn
      have hstep := fnone hn
      rw [hstep] at hn ⊢
      rw [snone hn]

theorem bestCandidate_some_spec (thr : Nat) (g : GrafanaAlert)
    (used : List String) (js : List JsmAlert) (s : Nat) (b : JsmAlert)
    (t : String) (h : bestCandidate thr g used js = (s, some b, t)) :
    b ∈ js ∧ b.id ∉ used ∧ s = calculate_content_similarity_score g b ∧
    thr < s ∧ t = scoreBand s ∧
    ∀ j ∈ js, j.id ∉ used → calculate_content_similarity_score g j ≤ s := by
  have init : BcInv thr g used (thr, none, "none") := ⟨le_refl _, by simp⟩
  obtain ⟨⟨_, hinv⟩, _, hmem, hmax, _⟩ := bcFold_spec thr g used js _ init
  rw [bestCandidate] at h
  rw [h] at hinv hmem hmax
  obtain ⟨hb1, hb2, hb3, hb4⟩ := hinv b rfl
  rcases hmem b rfl with hin | hnone
  · exact ⟨hin, hb1, hb2, hb3, hb4, hmax⟩
  · simp at hnone

theorem bestCandidate_none_spec (thr : Nat) (g : GrafanaAlert)
    (used : List String) (js : List JsmAlert) (s : Nat) (t : String)
    (h : bestCandidate thr g used js = (s, none, t)) :
    s = thr ∧ t = "none" := by
  have init : BcInv thr g used (thr, none, "none") := ⟨le_refl _, by simp⟩
  obtain ⟨_, _, _, _, hnone⟩ := bcFold_spec thr g used js _ init
  rw [bestCandidate] at h
  have hr := hnone (by rw [h])
  rw [h] at hr
  simp only [Prod.mk.injEq] at hr
  exact ⟨hr.1, hr.2.2⟩

theorem matchAux_map_grafana (thr : Nat) (jsms : List JsmAlert) :
    ∀ (gs : List GrafanaAlert) (used : List String),
      (matchAux thr jsms gs used).map (fun m => m.grafana_alert) = gs
  | [], _ => rfl
  | g :: gs, used => by
    simp only [matchAux]
    rcases hbc : bestCandidate thr g used jsms with ⟨s, b?, t⟩
    cases b? <;> simp [matchAux_map_grafana thr jsms gs]

theorem matchAux_mem_spec (thr : Nat) (jsms : List JsmAlert) :
    ∀ (gs : List GrafanaAlert) (used : List String) (m : MatchInfo),
      m ∈ matchAux thr jsms gs used →
      (m.jsm_alert = none ∧ m.match_type = "none" ∧ m.match_confidence = 0) ∨
      (∃ b, m.jsm_alert = some b ∧ b ∈ jsms ∧
        m.match_confidence = calculate_content_similarity_score m.grafana_alert b ∧
        thr < m.match_confidence ∧
        m.match_type = scoreBand m.match_confidence)
  | [], _, m, hm => absurd hm (List.not_mem_nil m)
  | g :: gs, used, m, hm => by
    simp only [matchAux] at hm
    rcases hbc : bestCandidate thr g used jsms with ⟨s, b?, t⟩
    rw [hbc] at hm
    cases b? with
    | none =>
      rcases List.mem_cons.1 hm with rfl | hin
      · exact Or.inl ⟨rfl, rfl, rfl⟩
      · exact matchAux_mem_spec thr jsms gs used m hin
    | some b =>
      rcases List.mem_cons.1 hm with rfl | hin
      · obtain ⟨hmem, _, hscore, hthr, hband, _⟩ :=
          bestCandidate_some_spec thr g used jsms s b t hbc
        exact Or.inr ⟨b, rfl, hmem, hscore, hthr, hband⟩
      · exact matchAux_mem_spec thr jsms gs (b.id :: used) m hin

theorem matchAux_bound_spec (thr : Nat) (jsms : List JsmAlert) :
    ∀ (gs : List GrafanaAlert) (used : List String),
      ((matchAux thr jsms gs used).filterMap boundId).Nodup ∧
      ∀ i ∈ (matchAux thr jsms gs used).filterMap boundId, i ∉ used
  | [], _ => ⟨List.nodup_nil, by simp [matchAux]⟩
  | g :: gs, used => by
    simp only [matchAux]
    rcases hbc : bestCandidate thr g used jsms with ⟨s, b?, t⟩
    cases b? with
    | none =>
      simp only [List.filterMap_cons, boundId, Option.map_none]
      exact matchAux_bound_spec thr jsms gs used
    | some b =>
      obtain ⟨_, hbu, _, _, _, _⟩ := bestCandidate_some_spec thr g used jsms s b t hbc
      obtain ⟨ih1, ih2⟩ := matchAux_bound_spec thr jsms gs (b.id :: used)
      simp only [List.filterMap_cons, boundId, Option.map_some]
      constructor
      · exact List.nodup_cons.2
          ⟨fun hmem => (ih2 _ hmem) (List.mem_cons_self _ _), ih1⟩
      · intro i hi
        rcases List.mem_cons.1 hi with rfl | hin
        · exact hbu
        · exact fun hiu => (ih2 i hin) (List.mem_cons_of_mem _ hiu)

theorem matchAux_drop (thr : Nat) (jsms : List JsmAlert) :
    ∀ (i : Nat) (gs : List GrafanaAlert) (used : List String),
      (matchAux thr jsms gs used).drop i =
        matchAux thr jsms (gs.drop i) (usedAfter thr jsms (gs.take i) used)
  | 0, gs, used => by simp [usedAfter]
  | i + 1, [], used => by simp [matchAux, usedAfter]
  | i + 1, g :: gs, used => by
    simp only [List.take_succ_cons, List.drop_succ_cons, matchAux, usedAfter]
    rcases hbc : bestCandidate thr g used jsms with ⟨s, b?, t⟩
    cases b? <;> simp only [List.drop_succ_cons] <;>
      exact matchAux_drop thr jsms i gs _

/-- C1 — counterexample.  The claim asserts that a RecordB whose alias
equals the fingerprint of a RecordA is bound to it with match-kind
`alias` and confidence 95.  On the code this fails: `c1j.alias` is
exactly `create_alert_fingerprint c1g`, yet `match_grafana_with_jsm`
(which never consults aliases or fingerprints) produces no binding at
all — match-kind `none`, confidence 0. -/
theorem C1_counterexample :
    c1j.«alias» = create_alert_fingerprint c1g ∧
    match_grafana_with_jsm ALERT_MATCH_CONFIDENCE_THRESHOLD [c1g] [c1j] =
      [⟨c1g, none, "none", 0⟩] :=
  ⟨rfl, rfl⟩

/-- C1 — amended claim.  The matcher has no alias/fingerprint path:
`create_alert_fingerprint` is never invoked by `match_grafana_with_jsm`,
no result ever carries match-kind `alias`, and every binding is produced
by composite scoring alone — its confidence is the composite score of
the bound RecordB and strictly exceeds the threshold. -/
theorem C1_amended (thr : Nat) (gs : List GrafanaAlert) (js : List JsmAlert)
    (m : MatchInfo) (hm : m ∈ match_grafana_with_jsm thr gs js) :
    m.match_type ≠ "alias" ∧
    ∀ b, m.jsm_alert = some b →
      m.match_confidence = calculate_content_similarity_score m.grafana_alert b ∧
      thr < m.match_confidence := by
  rcases matchAux_mem_spec thr js gs [] m hm with ⟨hn, ht, _⟩ | ⟨b, hb, _, hs, hthr, ht⟩
  · refine ⟨by rw [ht]; decide, ?_⟩
    intro b hb
    rw [hn] at hb
    exact absurd hb (by simp)
  · refine ⟨?_, ?_⟩
    · rw [ht]
      unfold scoreBand
      split_ifs <;> decide
    · intro b2 hb2
      rw [hb] at hb2
      obtain rfl : b = b2 := by simpa using hb2
      exact ⟨hs, hthr⟩

/-- C1 — witness for the amended claim at a concrete matched pair. -/
theorem C1_amended_witness :
    (⟨cg3, some cj3, "low_confidence", 40⟩ : MatchInfo)
        ∈ match_grafana_with_jsm 30 [cg3] [cj3] ∧
    ((⟨cg3, some cj3, "low_confidence", 40⟩ : MatchInfo).match_type ≠ "alias" ∧
      ∀ b, (⟨cg3, some cj3, "low_confidence", 40⟩ : MatchInfo).jsm_alert = some b →
        (⟨cg3, some cj3, "low_confidence", 40⟩ : MatchInfo).match_confidence =
            calculate_content_similarity_score
              (⟨cg3, some cj3, "low_confidence", 40⟩ : MatchInfo).grafana_alert b ∧
        30 < (⟨cg3, some cj3, "low_confidence", 40⟩ : MatchInfo).match_confidence) :=
  ⟨by decide, C1_amended 30 [cg3] [cj3] _ (by decide)⟩

/-- C2 — within one matcher pass no JSM alert id is bound to more than
one Grafana alert: the list of bound ids has no duplicates. -/
theorem C2_exclusive_assignment (thr : Nat) (gs : List GrafanaAlert)
    (js : List JsmAlert) :
    ((match_grafana_with_jsm thr gs js).filterMap boundId).Nodup :=
  (matchAux_bound_spec thr js gs []).1

/-- C9 — the matcher is a pure function: identical input collections
(in the same order) give identical match results. -/
theorem C9_deterministic (thr : Nat) (g1 g2 : List GrafanaAlert)
    (j1 j2 : List JsmAlert) (hg : g1 = g2) (hj : j1 = j2) :
    match_grafana_with_jsm thr g1 j1 = match_grafana_with_jsm thr g2 j2 := by
  rw [hg, hj]

/-- C9 — witness at concrete inputs. -/
theorem C9_witness :
    ([cg3] = [cg3]) ∧ ([cj3] = [cj3]) ∧
    match_grafana_with_jsm 30 [cg3] [cj3] = match_grafana_with_jsm 30 [cg3] [cj3] :=
  ⟨rfl, rfl, C9_deterministic 30 [cg3] [cg3] [cj3] [cj3] rfl rfl⟩

/-- C10 — the matcher returns exactly one result per input Grafana
alert, in input order, with `grafana_alert` the corresponding input
record (in particular nothing is dropped or duplicated, also for an
empty JSM collection). -/
theorem C10_result_per_input (thr : Nat) (gs : List GrafanaAlert)
    (js : List JsmAlert) :
    (match_grafana_with_jsm thr gs js).map (fun m => m.grafana_alert) = gs ∧
    (match_grafana_with_jsm thr gs js).length = gs.length := by
  have h := matchAux_map_grafana thr js gs []
  exact ⟨h, by simpa using congrArg List.length h⟩

theorem scoreBand_high (s : Nat) (h : 90 ≤ s) :
    scoreBand s = "high_confidence" := by
  unfold scoreBand
  rw [if_pos h]

theorem scoreBand_mid (s : Nat) (h1 : 70 ≤ s) (h2 : s < 90) :
    scoreBand s = "content_similarity" := by
  unfold scoreBand
  rw [if_neg (by omega), if_pos h1]

theorem scoreBand_low (s : Nat) (h : s < 70) :
    scoreBand s = "low_confidence" := by
  unfold scoreBand
  rw [if_neg (by omega), if_neg (by omega)]

/-- C3 — composite-score selection.  Every binding produced by the
matcher at position `i` carries the composite score of the bound
RecordB, strictly exceeds the threshold, is maximal among the RecordBs
that are still unbound at that point, and its match-kind follows the
score bands (≥ 90 `high_confidence`, 70–89 `content_similarity`,
otherwise `low_confidence`). -/
theorem C3_composite_selection (thr : Nat) (gs : List GrafanaAlert)
    (js : List JsmAlert) (i : Nat) (m : MatchInfo) (b : JsmAlert)
    (hm : (match_grafana_with_jsm thr gs js)[i]? = some m)
    (hb : m.jsm_alert = some b) :
    b ∈ js ∧ b.id ∉ usedAfter thr js (gs.take i) [] ∧
    m.match_confidence = calculate_content_similarity_score m.grafana_alert b ∧
    thr < m.match_confidence ∧
    (∀ j ∈ js, j.id ∉ usedAfter thr js (gs.take i) [] →
      calculate_content_similarity_score m.grafana_alert j ≤ m.match_confidence) ∧
    (90 ≤ m.match_confidence → m.match_type = "high_confidence") ∧
    (70 ≤ m.match_confidence → m.match_confidence < 90 →
      m.match_type = "content_similarity") ∧
    (m.match_confidence < 70 → m.match_type = "low_confidence") := by
  rw [← List.head?_drop] at hm
  rw [match_grafana_with_jsm, matchAux_drop thr js i gs []] at hm
  cases hgs : gs.drop i with
  | nil =>
    rw [hgs] at hm
    simp [matchAux] at hm
  | cons g rest =>
    rw [hgs] at hm
    simp only [matchAux] at hm
    rcases hbc : bestCandidate thr g (usedAfter thr js (gs.take i) []) js
      with ⟨s, b?, t⟩
    rw [hbc] at hm
    cases b? with
    | none =>
      simp only [List.head?_cons, Option.some.injEq] at hm
      rw [← hm] at hb
      exact absurd hb (by simp)
    | some b2 =>
      simp only [List.head?_cons, Option.some.injEq] at hm
      subst hm
      have hbb : b2 = b := by simpa using hb
      subst hbb
      obtain ⟨hmem, hbu, hscore, hthr, hband, hmax⟩ :=
        bestCandidate_some_spec thr g _ js s b2 t hbc
      refine ⟨hmem, hbu, hscore, hthr, hmax, ?_, ?_, ?_⟩
      · intro h90
        simpa using hband.trans (scoreBand_high s h90)
      · intro h70 h90
        simpa using hband.trans (scoreBand_mid s h70 h90)
      · intro h70
        simpa using hband.trans (scoreBand_low s h70)

/-- C3 — witness at a concrete matched pair (score 40, threshold 30). -/
theorem C3_witness :
    (match_grafana_with_jsm 30 [cg3] [cj3])[0]? =
        some ⟨cg3, some cj3, "low_confidence", 40⟩ ∧
    cj3 ∈ [cj3] ∧
    (⟨cg3, some cj3, "low_confidence", 40⟩ : MatchInfo).match_type =
      "low_confidence" := by
  have h := C3_composite_selection 30 [cg3] [cj3] 0
    ⟨cg3, some cj3, "low_confidence", 40⟩ cj3 (by decide) rfl
  exact ⟨by decide, h.1, h.2.2.2.2.2.2.2 (by decide)⟩

/-- C4 — confidence bounds.  Every matcher result has confidence in
[0,100]; match-kind `none` implies confidence 0 and no bound RecordB;
and the merge writes exactly this confidence into the AlertRecord
(update and create), clearing the binding when there is no match. -/
theorem C4_confidence_invariant (thr : Nat) (gs : List GrafanaAlert)
    (js : List JsmAlert) (m : MatchInfo)
    (hm : m ∈ match_grafana_with_jsm thr gs js) :
    m.match_confidence ≤ 100 ∧
    (m.match_type = "none" → m.match_confidence = 0 ∧ m.jsm_alert = none) ∧
    ∀ (a : Alert) (now : Int),
      (_update_existing_alert a (_sanitize_alert_data m.grafana_alert)
          m.jsm_alert m.match_type m.match_confidence now).match_confidence =
        some m.match_confidence ∧
      (_create_new_alert (_sanitize_alert_data m.grafana_alert)
          m.jsm_alert m.match_type m.match_confidence now).match_confidence =
        some m.match_confidence ∧
      (m.jsm_alert = none →
        (_update_existing_alert a (_sanitize_alert_data m.grafana_alert)
            m.jsm_alert m.match_type m.match_confidence now).jsm_alert_id = none ∧
        (_update_existing_alert a (_sanitize_alert_data m.grafana_alert)
            m.jsm_alert m.match_type m.match_confidence now).match_type =
          some "none" ∧
        (_create_new_alert (_sanitize_alert_data m.grafana_alert)
            m.jsm_alert m.match_type m.match_confidence now).jsm_alert_id = none ∧
        (_create_new_alert (_sanitize_alert_data m.grafana_alert)
            m.jsm_alert m.match_type m.match_confidence now).match_type =
          some "none") := by
  rcases matchAux_mem_spec thr js gs [] m hm with ⟨hn, ht, hc⟩ | ⟨b, hbs, _, hs, _, ht⟩
  · refine ⟨by rw [hc]; exact Nat.zero_le 100, fun _ => ⟨hc, hn⟩, ?_⟩
    intro a now
    rw [hn, hc]
    refine ⟨?_, ?_, fun _ => ⟨?_, ?_, ?_, ?_⟩⟩ <;>
      simp [_update_existing_alert, _create_new_alert, copyGrafana, newAlertBase]
  · refine ⟨by rw [hs]; exact calc_score_le_100 _ _, ?_, ?_⟩
    · intro hnone
      rw [ht] at hnone
      exact absurd hnone (scoreBand_ne_none _)
    · intro a now
      rw [hbs]
      refine ⟨?_, ?_, fun hnone => absurd hnone (by simp)⟩ <;>
        simp [_update_existing_alert, _create_new_alert, _update_jsm_fields,
          copyGrafana, newAlertBase]

/-- C4 — witness at a concrete matched pair. -/
theorem C4_witness :
    (⟨cg3, some cj3, "low_confidence", 40⟩ : MatchInfo)
        ∈ match_grafana_with_jsm 30 [cg3] [cj3] ∧
    (⟨cg3, some cj3, "low_confidence", 40⟩ : MatchInfo).match_confidence ≤ 100 := by
  have h := C4_confidence_invariant 30 [cg3] [cj3]
    ⟨cg3, some cj3, "low_confidence", 40⟩ (by decide)
  exact ⟨by decide, h.1⟩

/-- C5 — counterexample.  The claim asserts that a fetch failure in
either connector aborts the pass with no committed mutation.  On the
code, a Source B (JSM) fetch failure is swallowed by `get_jsm_alerts`
(which returns `[]`): the pass completes successfully (`Except.ok`, not
an error) and commits a real mutation — the existing row's JSM binding
is cleared. -/
theorem C5_counterexample :
    sync_alerts 30 5 (Except.ok [c1g]) (Except.error "boom")
        (fun _ => false) [c5row] =
      Except.ok ([c5exp], []) ∧
    c5exp ≠ c5row :=
  ⟨rfl, by decide⟩

/-- C5 — amended claim.  Only a Source A (Grafana) fetch failure aborts
the pass with the store untouched (the exception propagates through
`sync_alerts`, which rolls back and re-raises); a Source B (JSM) fetch
failure is swallowed by `get_jsm_alerts` and the pass proceeds exactly
as if the JSM collection were empty, committing its mutations. -/
theorem C5_amended (thr : Nat) (now : Int) (e : String)
    (jf : Except String (List JsmAlert)) (closeOk : String → Bool)
    (store : List Alert) :
    sync_alerts thr now (Except.error e) jf closeOk store = Except.error e ∧
    ∀ gs, sync_alerts thr now (Except.ok gs) (Except.error e) closeOk store =
      sync_alerts thr now (Except.ok gs) (Except.ok []) closeOk store :=
  ⟨rfl, fun _ => rfl⟩

theorem mark_resolved_length (activeIds : List String)
    (closeOk : String → Bool) (now : Int) (store : List Alert) :
    ((_mark_resolved_alerts activeIds closeOk now store).1).length =
      store.length := by
  simp [_mark_resolved_alerts]

/-- C6 — resolve-stale.  EVERY active row whose RecordA id is absent
from the active set transitions to `resolved`, whether or not it
carries a JSM binding; additionally, whenever it does carry a bound
non-empty JSM id whose mirrored status is not `closed`, a close() is
attempted on that id, and a failed close (`closeOk` false, the boolean
outcome under which `close_jsm_alert` also wraps its own exceptions)
changes nothing except the local `resolved` transition — the pass is
not aborted. -/
theorem C6_resolve_stale (activeIds : List String) (closeOk : String → Bool)
    (now : Int) (store : List Alert) (i : Nat)
    (h1 : i < store.length)
    (h2 : i < ((_mark_resolved_alerts activeIds closeOk now store).1).length)
    (ha : store[i].grafana_status = "active")
    (hid : store[i].alert_id ∉ activeIds) :
    ((_mark_resolved_alerts activeIds closeOk now store).1)[i].grafana_status =
      "resolved" ∧
    (∀ jid, store[i].jsm_alert_id = some jid → jid ≠ "" →
      store[i].jsm_status ≠ some "closed" →
      jid ∈ (_mark_resolved_alerts activeIds closeOk now store).2 ∧
      (closeOk jid = false →
        ((_mark_resolved_alerts activeIds closeOk now store).1)[i] =
          { store[i] with grafana_status := "resolved" })) := by
  have hsr : shouldResolve activeIds store[i] = true := by
    simp [shouldResolve, ha, hid]
  refine ⟨?_, ?_⟩
  · simp only [_mark_resolved_alerts, List.getElem_map, resolveRow, hsr, if_pos]
    rcases hjm : store[i].jsm_alert_id with _ | jid0 <;>
      simp only [resolveOne, hjm] <;>
        first
          | rfl
          | (split_ifs <;> rfl)
  · intro jid hj hjne hst
    have hca : closeAttempt store[i] = some jid := by
      simp [closeAttempt, hj, hjne, hst]
    refine ⟨?_, ?_⟩
    · exact List.mem_filterMap.2 ⟨store[i],
        List.mem_filter.2 ⟨List.getElem_mem h1, hsr⟩, hca⟩
    · intro hfail
      simp only [_mark_resolved_alerts, List.getElem_map, resolveRow, hsr, if_pos]
      simp only [resolveOne, hj]
      rw [if_pos ⟨hjne, hst⟩, if_neg (by simp [hfail])]

/-- C6 — witness: a concrete stale row with an open JSM binding and a
failing close() call: it transitions to `resolved` and a close() is
attempted on its bound id. -/
theorem C6_witness :
    ((_mark_resolved_alerts [] (fun _ => false) 7 [c5row]).1)[0].grafana_status =
      "resolved" ∧
    "j1" ∈ (_mark_resolved_alerts [] (fun _ => false) 7 [c5row]).2 := by
  have h := C6_resolve_stale [] (fun _ => false) 7 [c5row] 0
    (by decide) (by decide) (by decide) (by decide)
  exact ⟨h.1, (h.2 "j1" (by decide) (by decide) (by decide)).1⟩

/-- C8 — counterexample.  The claim asserts the filter drops a RecordA
exactly when its cluster or environment matches an entry of the
configured denylists.  The cluster label `dev` of `c8g` matches the
`EXCLUDED_CLUSTERS` entry `"dev"`, yet `_is_non_prod_alert` keeps the
record: the code never consults the configured lists. -/
theorem C8_counterexample :
    specDenylistMatch c8g = true ∧ _is_non_prod_alert c8g = false :=
  ⟨rfl, rfl⟩

/-- C8 — amended claim.  The FILTER step drops a RecordA exactly when
`stage` occurs case-insensitively in its `cluster` label or its `env`
label equals `devo-stage-eu`; the configured denylists
(`EXCLUDED_CLUSTERS` / `EXCLUDED_ENVIRONMENTS`) play no role. -/
theorem is_non_prod_eq (g : GrafanaAlert) :
    _is_non_prod_alert g =
      (strContains (lowerStr (labelGet g "cluster")) "stage"
        || decide (labelGet g "env" = "devo-stage-eu")) := by
  unfold _is_non_prod_alert
  by_cases h1 : strContains (lowerStr (labelGet g "cluster")) "stage" = true
  · simp [h1]
  · by_cases h2 : labelGet g "env" = "devo-stage-eu" <;> simp [h1, h2]

/-- C8 — amended claim.  The FILTER step drops a RecordA exactly when
`stage` occurs case-insensitively in its `cluster` label or its `env`
label equals `devo-stage-eu`; the configured denylists
(`EXCLUDED_CLUSTERS` / `EXCLUDED_ENVIRONMENTS`) play no role. -/
theorem C8_amended (gs : List GrafanaAlert) :
    gs.filter (fun g => ¬ _is_non_prod_alert g) =
      gs.filter (fun g =>
        !(strContains (lowerStr (labelGet g "cluster")) "stage"
          || decide (labelGet g "env" = "devo-stage-eu"))) := by
  apply List.filter_congr
  intro g _
  rw [is_non_prod_eq]
  cases hb : (strContains (lowerStr (labelGet g "cluster")) "stage"
      || decide (labelGet g "env" = "devo-stage-eu")) <;> simp [hb]

/-! Projection lemmas used by the idempotence development. -/

@[simp] theorem jsmW_alert_id (a : Alert) (j : JsmAlert) (mt : Option String)
    (mc : Option Nat) (now : Int) :
    (_update_jsm_fields a j mt mc now).alert_id = a.alert_id := rfl

@[simp] theorem jsmW_alert_name (a : Alert) (j : JsmAlert) (mt : Option String)
    (mc : Option Nat) (now : Int) :
    (_update_jsm_fields a j mt mc now).alert_name = a.alert_name := rfl

@[simp] theorem jsmW_cluster (a : Alert) (j : JsmAlert) (mt : Option String)
    (mc : Option Nat) (now : Int) :
    (_update_jsm_fields a j mt mc now).cluster = a.cluster := rfl

@[simp] theorem jsmW_severity (a : Alert) (j : JsmAlert) (mt : Option String)
    (mc : Option Nat) (now : Int) :
    (_update_jsm_fields a j mt mc now).severity = a.severity := rfl

@[simp] theorem jsmW_summary (a : Alert) (j : JsmAlert) (mt : Option String)
    (mc : Option Nat) (now : Int) :
    (_update_jsm_fields a j mt mc now).summary = a.summary := rfl

@[simp] theorem jsmW_started_at (a : Alert) (j : JsmAlert) (mt : Option String)
    (mc : Option Nat) (now : Int) :
    (_update_jsm_fields a j mt mc now).started_at = a.started_at := rfl

@[simp] theorem jsmW_labels (a : Alert) (j : JsmAlert) (mt : Option String)
    (mc : Option Nat) (now : Int) :
    (_update_jsm_fields a j mt mc now).labels = a.labels := rfl

@[simp] theorem jsmW_grafana_status (a : Alert) (j : JsmAlert)
    (mt : Option String) (mc : Option Nat) (now : Int) :
    (_update_jsm_fields a j mt mc now).grafana_status = a.grafana_status := rfl

@[simp] theorem jsmW_updated_at (a : Alert) (j : JsmAlert) (mt : Option String)
    (mc : Option Nat) (now : Int) :
    (_update_jsm_fields a j mt mc now).updated_at = a.updated_at := rfl

@[simp] theorem jsmW_created_at (a : Alert) (j : JsmAlert) (mt : Option String)
    (mc : Option Nat) (now : Int) :
    (_update_jsm_fields a j mt mc now).created_at = a.created_at := rfl

@[simp] theorem jsmW_resolved_by (a : Alert) (j : JsmAlert) (mt : Option String)
    (mc : Option Nat) (now : Int) :
    (_update_jsm_fields a j mt mc now).resolved_by = a.resolved_by := rfl

@[simp] theorem jsmW_resolved_at (a : Alert) (j : JsmAlert) (mt : Option String)
    (mc : Option Nat) (now : Int) :
    (_update_jsm_fields a j mt mc now).resolved_at = a.resolved_at := rfl

@[simp] theorem jsmW_match_type (a : Alert) (j : JsmAlert) (mt : Option String)
    (mc : Option Nat) (now : Int) :
    (_update_jsm_fields a j mt mc now).match_type = mt := rfl

@[simp] theorem jsmW_match_confidence (a : Alert) (j : JsmAlert)
    (mt : Option String) (mc : Option Nat) (now : Int) :
    (_update_jsm_fields a j mt mc now).match_confidence = mc := rfl

@[simp] theorem jsmW_jsm_alert_id (a : Alert) (j : JsmAlert)
    (mt : Option String) (mc : Option Nat) (now : Int) :
    (_update_jsm_fields a j mt mc now).jsm_alert_id = some j.id := rfl

theorem ownerStamp_truthy (j : JsmAlert) :
    truthy (some (if j.owner = "" then "JSM User" else j.owner)) = true := by
  by_cases h : j.owner = "" <;> simp [truthy, h]

/-- `_update_jsm_fields` is absorbing: applying it twice with the same
JSM alert and match info equals applying it once.  (The conditional
acknowledgment stamp is monotone: once set, the guard is false.) -/
theorem jsmW_idem (a : Alert) (j : JsmAlert) (mt : Option String)
    (mc : Option Nat) (now : Int) :
    _update_jsm_fields (_update_jsm_fields a j mt mc now) j mt mc now =
      _update_jsm_fields a j mt mc now := by
  by_cases hack : j.acknowledged <;>
    by_cases htr : truthy a.acknowledged_by = true <;>
      cases hu : j.updatedAt <;>
        cases hc : j.createdAt <;>
          cases hl : j.lastOccurredAt <;>
            simp [_update_jsm_fields, hack, htr, hu, hc, hl, ownerStamp_truthy j]

theorem copyGrafana_idem (a : Alert) (g : GrafanaAlert) (now : Int) :
    copyGrafana (copyGrafana a g now) g now = copyGrafana a g now := rfl

theorem copyGrafana_after_jsmW (a : Alert) (g : GrafanaAlert) (now : Int)
    (j : JsmAlert) (mt : Option String) (mc : Option Nat) :
    copyGrafana (_update_jsm_fields (copyGrafana a g now) j mt mc now) g now =
      _update_jsm_fields (copyGrafana a g now) j mt mc now := by
  apply Alert.ext <;> simp [copyGrafana]

theorem copyGrafana_after_base_jsmW (g : GrafanaAlert) (now : Int)
    (j : JsmAlert) (mt : Option String) (mc : Option Nat) :
    copyGrafana (_update_jsm_fields (newAlertBase g now) j mt mc now) g now =
      _update_jsm_fields (newAlertBase g now) j mt mc now := by
  apply Alert.ext <;> simp [copyGrafana, newAlertBase]

/-- The merge row update is absorbing. -/
theorem applyMatch_idem (now : Int) (m : MatchInfo) (x : Alert) :
    applyMatch now m (applyMatch now m x) = applyMatch now m x := by
  unfold applyMatch _update_existing_alert
  cases m.jsm_alert with
  | none => apply Alert.ext <;> simp [copyGrafana]
  | some b =>
    rw [copyGrafana_after_jsmW]
    exact jsmW_idem _ _ _ _ _

/-- Updating a freshly created row with its own match data changes
nothing. -/
theorem applyMatch_createOf (now : Int) (m : MatchInfo) :
    applyMatch now m (createOf now m) = createOf now m := by
  unfold applyMatch createOf _update_existing_alert _create_new_alert
  cases m.jsm_alert with
  | none => apply Alert.ext <;> simp [copyGrafana, newAlertBase]
  | some b =>
    rw [copyGrafana_after_base_jsmW]
    exact jsmW_idem _ _ _ _ _

@[simp] theorem applyMatch_alert_id (now : Int) (m : MatchInfo) (a : Alert) :
    (applyMatch now m a).alert_id = sanitizedId m := by
  unfold applyMatch _update_existing_alert sanitizedId
  cases m.jsm_alert <;> simp [copyGrafana]

@[simp] theorem applyMatch_grafana_status (now : Int) (m : MatchInfo) (a : Alert) :
    (applyMatch now m a).grafana_status = "active" := by
  unfold applyMatch _update_existing_alert
  cases m.jsm_alert <;> simp [copyGrafana]

@[simp] theorem createOf_alert_id (now : Int) (m : MatchInfo) :
    (createOf now m).alert_id = sanitizedId m := by
  unfold createOf _create_new_alert sanitizedId
  cases m.jsm_alert <;> simp [newAlertBase]

@[simp] theorem createOf_grafana_status (now : Int) (m : MatchInfo) :
    (createOf now m).grafana_status = "active" := by
  unfold createOf _create_new_alert
  cases m.jsm_alert <;> simp [newAlertBase]

theorem applyMatch_jsmid_none (now : Int) (m : MatchInfo) (a : Alert)
    (h : m.jsm_alert = none) : (applyMatch now m a).jsm_alert_id = none := by
  unfold applyMatch _update_existing_alert
  rw [h]

theorem createOf_jsmid_none (now : Int) (m : MatchInfo)
    (h : m.jsm_alert = none) : (createOf now m).jsm_alert_id = none := by
  unfold createOf _create_new_alert
  rw [h]
  simp [newAlertBase]

@[simp] theorem resolveOne_alert_id (closeOk : String → Bool) (now : Int)
    (a : Alert) : (resolveOne closeOk now a).alert_id = a.alert_id := by
  rcases h : a.jsm_alert_id with _ | jid <;>
    simp only [resolveOne, h] <;>
      first
        | rfl
        | (split_ifs <;> rfl)

@[simp] theorem resolveOne_grafana_status (closeOk : String → Bool) (now : Int)
    (a : Alert) : (resolveOne closeOk now a).grafana_status = "resolved" := by
  rcases h : a.jsm_alert_id with _ | jid <;>
    simp only [resolveOne, h] <;>
      first
        | rfl
        | (split_ifs <;> rfl)

@[simp] theorem resolveRow_alert_id (activeIds : List String)
    (closeOk : String → Bool) (now : Int) (a : Alert) :
    (resolveRow activeIds closeOk now a).alert_id = a.alert_id := by
  unfold resolveRow
  split_ifs <;> simp

theorem orphanRow_eq_of_none (js : List JsmAlert) (now : Int) (a : Alert)
    (h : a.jsm_alert_id = none) : orphanRow js now a = a := by
  simp [orphanRow, h]

theorem orphanRow_eq_of_lost (js : List JsmAlert) (now : Int) (a : Alert)
    (jid : String) (h1 : a.jsm_alert_id = some jid)
    (h2 : jsmById js jid = none) : orphanRow js now a = a := by
  simp [orphanRow, h1, h2]

theorem orphanRow_eq_of_found (js : List JsmAlert) (now : Int) (a : Alert)
    (jid : String) (jd : JsmAlert) (h1 : a.jsm_alert_id = some jid)
    (h2 : jsmById js jid = some jd) :
    orphanRow js now a =
      _update_jsm_fields a jd a.match_type a.match_confidence now := by
  simp [orphanRow, h1, h2]

@[simp] theorem orphanRow_alert_id (js : List JsmAlert) (now : Int) (a : Alert) :
    (orphanRow js now a).alert_id = a.alert_id := by
  rcases h1 : a.jsm_alert_id with _ | jid
  · rw [orphanRow_eq_of_none js now a h1]
  · rcases h2 : jsmById js jid with _ | jd
    · rw [orphanRow_eq_of_lost js now a jid h1 h2]
    · rw [orphanRow_eq_of_found js now a jid jd h1 h2]
      simp

@[simp] theorem orphanRow_grafana_status (js : List JsmAlert) (now : Int)
    (a : Alert) : (orphanRow js now a).grafana_status = a.grafana_status := by
  rcases h1 : a.jsm_alert_id with _ | jid
  · rw [orphanRow_eq_of_none js now a h1]
  · rcases h2 : jsmById js jid with _ | jd
    · rw [orphanRow_eq_of_lost js now a jid h1 h2]
    · rw [orphanRow_eq_of_found js now a jid jd h1 h2]
      simp

theorem find_by_id (b : JsmAlert) : ∀ (l : List JsmAlert),
    (l.map (fun j => j.id)).Nodup → b ∈ l →
    l.find? (fun j => j.id = b.id) = some b
  | [], _, h => absurd h (List.not_mem_nil b)
  | j :: rest, hnd, hmem => by
    rcases List.mem_cons.1 hmem with rfl | hin
    · exact List.find?_cons_of_pos _ (by simp)
    · have hne : ¬ (j.id = b.id) := by
        intro he
        have hmem2 : b.id ∈ rest.map (fun x => x.id) :=
          List.mem_map_of_mem _ hin
        rw [← he] at hmem2
        exact (List.nodup_cons.1 hnd).1 hmem2
      rw [List.find?_cons_of_neg _ (by simpa using hne)]
      exact find_by_id b rest (List.nodup_cons.1 hnd).2 hin

theorem jsmById_self (js : List JsmAlert) (b : JsmAlert)
    (hnd : (js.map (fun j => j.id)).Nodup) (hb : b ∈ js) :
    jsmById js b.id = some b := by
  unfold jsmById
  apply find_by_id
  · rw [List.map_reverse]
    exact List.nodup_reverse.2 hnd
  · exact List.mem_reverse.2 hb

theorem jsmById_id (js : List JsmAlert) (jid : String) (jd : JsmAlert)
    (h : jsmById js jid = some jd) : jd.id = jid := by
  unfold jsmById at h
  have := List.find?_some h
  simpa using this

/-- The orphan refresh is idempotent on every row. -/
theorem orphanRow_idem (js : List JsmAlert) (now : Int) (x : Alert) :
    orphanRow js now (orphanRow js now x) = orphanRow js now x := by
  rcases h1 : x.jsm_alert_id with _ | jid
  · rw [orphanRow_eq_of_none js now x h1, orphanRow_eq_of_none js now x h1]
  · rcases h2 : jsmById js jid with _ | jd
    · rw [orphanRow_eq_of_lost js now x jid h1 h2,
        orphanRow_eq_of_lost js now x jid h1 h2]
    · rw [orphanRow_eq_of_found js now x jid jd h1 h2]
      have hid : jd.id = jid := jsmById_id js jid jd h2
      rw [orphanRow_eq_of_found js now _ jd.id jd (by simp) (by rw [hid]; exact h2)]
      simp only [jsmW_match_type, jsmW_match_confidence]
      exact jsmW_idem x jd x.match_type x.match_confidence now

theorem map_fix {α : Type} (f : α → α) : ∀ (l : List α),
    (∀ a ∈ l, f a = a) → l.map f = l
  | [], _ => rfl
  | a :: rest, h => by
    simp only [List.map_cons]
    rw [h a (List.mem_cons_self a rest),
      map_fix f rest (fun x hx => h x (List.mem_cons_of_mem a hx))]

theorem filter_map_by_id (f : Alert → Alert)
    (hf : ∀ x, (f x).alert_id = x.alert_id) (id : String) :
    ∀ (l : List Alert),
      (l.map f).filter (fun a => a.alert_id = id) =
        (l.filter (fun a => a.alert_id = id)).map f
  | [] => rfl
  | a :: rest => by
    simp only [List.map_cons, List.filter_cons, hf a]
    by_cases ha : a.alert_id = id <;>
      simp [ha, filter_map_by_id f hf id rest]

theorem updateFirst_fix (id : String) (f : Alert → Alert) :
    ∀ (l : List Alert), (∀ a ∈ l, a.alert_id = id → f a = a) →
      updateFirst id f l = l
  | [], _ => rfl
  | a :: rest, h => by
    unfold updateFirst
    by_cases ha : a.alert_id = id
    · rw [if_pos ha, h a (List.mem_cons_self a rest) ha]
    · rw [if_neg ha,
        updateFirst_fix id f rest (fun x hx => h x (List.mem_cons_of_mem a hx))]

theorem updateFirst_map_id (id : String) (f : Alert → Alert)
    (hf : ∀ a, a.alert_id = id → (f a).alert_id = id) :
    ∀ (l : List Alert),
      (updateFirst id f l).map (fun a => a.alert_id) =
        l.map (fun a => a.alert_id)
  | [] => rfl
  | a :: rest => by
    unfold updateFirst
    by_cases ha : a.alert_id = id
    · rw [if_pos ha]
      simp [hf a ha, ha]
    · rw [if_neg ha]
      simp [updateFirst_map_id id f hf rest]

theorem updateFirst_filter_other (id tid : String) (hne : id ≠ tid)
    (f : Alert → Alert) (hf : ∀ a, a.alert_id = id → (f a).alert_id = id) :
    ∀ (l : List Alert),
      (updateFirst id f l).filter (fun a => a.alert_id = tid) =
        l.filter (fun a => a.alert_id = tid)
  | [] => rfl
  | a :: rest => by
    unfold updateFirst
    by_cases ha : a.alert_id = id
    · rw [if_pos ha]
      have h1 : ¬ ((f a).alert_id = tid) := by rw [hf a ha]; exact hne
      have h2 : ¬ (a.alert_id = tid) := by rw [ha]; exact hne
      simp [List.filter_cons, h1, h2]
    · rw [if_neg ha]
      simp [List.filter_cons, updateFirst_filter_other id tid hne f hf rest]

theorem nodup_head_no_tail (id : String) (a : Alert) (rest : List Alert)
    (hnd : ((a :: rest).map (fun x => x.alert_id)).Nodup)
    (ha : a.alert_id = id) :
    rest.filter (fun x => x.alert_id = id) = [] := by
  apply List.filter_eq_nil_iff.2
  intro x hx
  have hnd2 : a.alert_id ∉ rest.map (fun y => y.alert_id) ∧
      (rest.map (fun y => y.alert_id)).Nodup := by
    rw [List.map_cons, List.nodup_cons] at hnd
    exact hnd
  have hne : x.alert_id ≠ id := by
    intro he
    apply hnd2.1
    rw [ha, ← he]
    exact List.mem_map_of_mem _ hx
  simpa using hne

theorem updateFirst_filter_self (id : String) (f : Alert → Alert)
    (hf : ∀ a, a.alert_id = id → (f a).alert_id = id) :
    ∀ (l : List Alert), ((l.map (fun a => a.alert_id)).Nodup) →
      (updateFirst id f l).filter (fun a => a.alert_id = id) =
        (l.filter (fun a => a.alert_id = id)).map f
  | [], _ => rfl
  | a :: rest, hnd => by
    unfold updateFirst
    by_cases ha : a.alert_id = id
    · rw [if_pos ha]
      have hfr := nodup_head_no_tail id a rest hnd ha
      simp [List.filter_cons, ha, hf a ha, hfr]
    · rw [if_neg ha]
      simp [List.filter_cons, ha,
        updateFirst_filter_self id f hf rest (by simpa using (List.nodup_cons.1 (by simpa using hnd)).2)]

theorem filter_id_singleton (id : String) :
    ∀ (l : List Alert), ((l.map (fun a => a.alert_id)).Nodup) →
      l.filter (fun a => a.alert_id = id) = [] ∨
      ∃ x, l.filter (fun a => a.alert_id = id) = [x]
  | [], _ => Or.inl rfl
  | a :: rest, hnd => by
    by_cases ha : a.alert_id = id
    · right
      refine ⟨a, ?_⟩
      have hfr := nodup_head_no_tail id a rest hnd ha
      simp [List.filter_cons, ha, hfr]
    · rw [List.filter_cons, if_neg (by simpa using ha)]
      exact filter_id_singleton id rest
        (by simpa using (List.nodup_cons.1 (by simpa using hnd)).2)

theorem mergeOne_eq (now : Int) (s : List Alert) (m : MatchInfo) :
    mergeOne now s m =
      if sanitizedId m = "" then s
      else if s.any (fun a => a.alert_id = sanitizedId m) then
        updateFirst (sanitizedId m) (applyMatch now m) s
      else s ++ [createOf now m] := rfl

theorem mergeAll_cons (now : Int) (m : MatchInfo) (ms : List MatchInfo)
    (s : List Alert) :
    mergeAll now (m :: ms) s = mergeAll now ms (mergeOne now s m) := rfl

theorem mergeOne_filter_other (now : Int) (s : List Alert) (m : MatchInfo)
    (tid : String) (hne : sanitizedId m ≠ tid) :
    (mergeOne now s m).filter (fun a => a.alert_id = tid) =
      s.filter (fun a => a.alert_id = tid) := by
  rw [mergeOne_eq]
  split_ifs with h1 h2
  · rfl
  · exact updateFirst_filter_other _ tid hne _ (fun a _ => by simp) s
  · rw [List.filter_append]
    simp [List.filter_cons, hne]

theorem mergeOne_filter_absent (now : Int) (s : List Alert) (m : MatchInfo)
    (hne : sanitizedId m ≠ "")
    (habs : s.filter (fun a => a.alert_id = sanitizedId m) = []) :
    (mergeOne now s m).filter (fun a => a.alert_id = sanitizedId m) =
      [createOf now m] := by
  rw [mergeOne_eq, if_neg hne]
  have hany : ¬ (s.any (fun a => a.alert_id = sanitizedId m) = true) := by
    intro h
    obtain ⟨x, hx, hpx⟩ := List.any_eq_true.1 h
    have : x ∈ s.filter (fun a => a.alert_id = sanitizedId m) :=
      List.mem_filter.2 ⟨hx, hpx⟩
    rw [habs] at this
    exact absurd this (List.not_mem_nil x)
  rw [if_neg hany, List.filter_append, habs]
  simp [List.filter_cons]

theorem mergeOne_filter_present (now : Int) (s : List Alert) (m : MatchInfo)
    (x : Alert) (hnd : (s.map (fun a => a.alert_id)).Nodup)
    (hne : sanitizedId m ≠ "")
    (hx : s.filter (fun a => a.alert_id = sanitizedId m) = [x]) :
    (mergeOne now s m).filter (fun a => a.alert_id = sanitizedId m) =
      [applyMatch now m x] := by
  have hxs : x ∈ s ∧ x.alert_id = sanitizedId m := by
    have : x ∈ s.filter (fun a => a.alert_id = sanitizedId m) := by
      rw [hx]; exact List.mem_cons_self x []
    obtain ⟨h1, h2⟩ := List.mem_filter.1 this
    exact ⟨h1, by simpa using h2⟩
  rw [mergeOne_eq, if_neg hne,
    if_pos (List.any_eq_true.2 ⟨x, hxs.1, by simpa using hxs.2⟩)]
  rw [updateFirst_filter_self _ _ (fun a _ => by simp) s hnd, hx]
  rfl

theorem mergeOne_map_id (now : Int) (s : List Alert) (m : MatchInfo) :
    ((mergeOne now s m).map (fun a => a.alert_id) =
        s.map (fun a => a.alert_id)) ∨
    ((mergeOne now s m).map (fun a => a.alert_id) =
        s.map (fun a => a.alert_id) ++ [sanitizedId m] ∧
      sanitizedId m ∉ s.map (fun a => a.alert_id)) := by
  rw [mergeOne_eq]
  split_ifs with h1 h2
  · exact Or.inl rfl
  · exact Or.inl (updateFirst_map_id _ _ (fun a _ => by simp) s)
  · right
    constructor
    · simp
    · intro hmem
      apply h2
      obtain ⟨x, hx, he⟩ := List.mem_map.1 hmem
      exact List.any_eq_true.2 ⟨x, hx, by simpa using he⟩

theorem mergeOne_nodup (now : Int) (s : List Alert) (m : MatchInfo)
    (hnd : (s.map (fun a => a.alert_id)).Nodup) :
    ((mergeOne now s m).map (fun a => a.alert_id)).Nodup := by
  rcases mergeOne_map_id now s m with h | ⟨h, hnm⟩
  · rw [h]; exact hnd
  · rw [h]
    refine List.Nodup.append hnd (List.nodup_singleton _) ?_
    intro x hx hy
    rw [List.mem_singleton] at hy
    subst hy
    exact hnm hx

theorem mergeAll_nodup (now : Int) : ∀ (ms : List MatchInfo) (s : List Alert),
    (s.map (fun a => a.alert_id)).Nodup →
    ((mergeAll now ms s).map (fun a => a.alert_id)).Nodup
  | [], _, h => h
  | m :: ms, s, h => by
    rw [mergeAll_cons]
    exact mergeAll_nodup now ms _ (mergeOne_nodup now s m h)

theorem mergeAll_filter_other (now : Int) :
    ∀ (ms : List MatchInfo) (s : List Alert) (tid : String),
      (∀ m ∈ ms, sanitizedId m ≠ tid) →
      (mergeAll now ms s).filter (fun a => a.alert_id = tid) =
        s.filter (fun a => a.alert_id = tid)
  | [], _, _, _ => rfl
  | m :: ms, s, tid, h => by
    rw [mergeAll_cons,
      mergeAll_filter_other now ms _ tid
        (fun m' hm' => h m' (List.mem_cons_of_mem m hm')),
      mergeOne_filter_other now s m tid (h m (List.mem_cons_self m ms))]

/-- After the merge loop, the store holds exactly one row keyed by each
matched (non-empty) identifier, and that row is either the update of
some prior row or a freshly created row. -/
theorem mergeAll_filter_key (now : Int) :
    ∀ (ms : List MatchInfo) (s : List Alert) (m : MatchInfo),
      m ∈ ms → (ms.map sanitizedId).Nodup → sanitizedId m ≠ "" →
      (s.map (fun a => a.alert_id)).Nodup →
      ∃ y, (mergeAll now ms s).filter (fun a => a.alert_id = sanitizedId m) =
          [y] ∧
        ((∃ x, y = applyMatch now m x) ∨ y = createOf now m)
  | [], _, m, hm, _, _, _ => absurd hm (List.not_mem_nil m)
  | m0 :: ms, s, m, hm, hmnd, hne, hsnd => by
    rw [List.map_cons, List.nodup_cons] at hmnd
    rw [mergeAll_cons]
    rcases List.mem_cons.1 hm with rfl | hin
    · have hothers : ∀ m' ∈ ms, sanitizedId m' ≠ sanitizedId m := by
        intro m' hm' he
        apply hmnd.1
        rw [← he]
        exact List.mem_map_of_mem _ hm'
      rw [mergeAll_filter_other now ms _ _ hothers]
      rcases filter_id_singleton (sanitizedId m) s hsnd with habs | ⟨x, hx⟩
      · exact ⟨createOf now m, mergeOne_filter_absent now s m hne habs,
          Or.inr rfl⟩
      · exact ⟨applyMatch now m x,
          mergeOne_filter_present now s m x hsnd hne hx, Or.inl ⟨x, rfl⟩⟩
    · exact mergeAll_filter_key now ms (mergeOne now s m0) m hin hmnd.2 hne
        (mergeOne_nodup now s m0 hsnd)

/-- A second merge pass over a store in which every matched identifier
is already present with a stable row is the identity. -/
theorem mergeAll_fix (now : Int) : ∀ (ms : List MatchInfo) (s : List Alert),
    (∀ m ∈ ms, sanitizedId m = "" ∨
      (s.any (fun a => a.alert_id = sanitizedId m) = true ∧
        ∀ a ∈ s, a.alert_id = sanitizedId m → applyMatch now m a = a)) →
    mergeAll now ms s = s
  | [], _, _ => rfl
  | m :: ms, s, h => by
    have hone : mergeOne now s m = s := by
      rcases h m (List.mem_cons_self m ms) with he | ⟨hany, hfix⟩
      · rw [mergeOne_eq, if_pos he]
      · by_cases he : sanitizedId m = ""
        · rw [mergeOne_eq, if_pos he]
        · rw [mergeOne_eq, if_neg he, if_pos hany]
          exact updateFirst_fix _ _ s hfix
    rw [mergeAll_cons, hone]
    exact mergeAll_fix now ms s (fun m' hm' => h m' (List.mem_cons_of_mem m hm'))

/-- Resolving a store with no stale-active row changes nothing and
attempts no close() calls. -/
theorem mark_resolved_noop (activeIds : List String) (closeOk : String → Bool)
    (now : Int) (s : List Alert)
    (h : ∀ a ∈ s, shouldResolve activeIds a = false) :
    _mark_resolved_alerts activeIds closeOk now s = (s, []) := by
  unfold _mark_resolved_alerts
  have h1 : s.map (resolveRow activeIds closeOk now) = s := by
    apply map_fix
    intro a ha
    unfold resolveRow
    rw [h a ha]
    simp
  have h2 : s.filter (shouldResolve activeIds) = [] :=
    List.filter_eq_nil_iff.2 (fun a ha => by rw [h a ha]; simp)
  rw [h1, h2]
  rfl

/-- The orphan refresh is idempotent on whole stores. -/
theorem orphan_idem (js : List JsmAlert) (now : Int) (s : List Alert) :
    _update_orphaned_jsm_alerts js now (_update_orphaned_jsm_alerts js now s) =
      _update_orphaned_jsm_alerts js now s := by
  unfold _update_orphaned_jsm_alerts
  apply map_fix
  intro a ha
  obtain ⟨x, _, rfl⟩ := List.mem_map.1 ha
  exact orphanRow_idem js now x

theorem applyMatch_some_proj (now : Int) (m : MatchInfo) (x : Alert)
    (b : JsmAlert) (h : m.jsm_alert = some b) :
    (applyMatch now m x).jsm_alert_id = some b.id ∧
    (applyMatch now m x).match_type = some m.match_type ∧
    (applyMatch now m x).match_confidence = some m.match_confidence := by
  unfold applyMatch _update_existing_alert
  rw [h]
  exact ⟨rfl, rfl, rfl⟩

theorem createOf_some_proj (now : Int) (m : MatchInfo) (b : JsmAlert)
    (h : m.jsm_alert = some b) :
    (createOf now m).jsm_alert_id = some b.id ∧
    (createOf now m).match_type = some m.match_type ∧
    (createOf now m).match_confidence = some m.match_confidence := by
  unfold createOf _create_new_alert
  rw [h]
  exact ⟨rfl, rfl, rfl⟩

theorem shouldResolve_false_of_mem (activeIds : List String) (a : Alert)
    (hmem : a.alert_id ∈ activeIds) : shouldResolve activeIds a = false := by
  simp [shouldResolve, hmem]

theorem resolveRow_skip (activeIds : List String) (closeOk : String → Bool)
    (now : Int) (a : Alert) (h : shouldResolve activeIds a = false) :
    resolveRow activeIds closeOk now a = a := by
  unfold resolveRow
  rw [h]
  simp

theorem mem_activeIds (matched : List MatchInfo) (m : MatchInfo)
    (hm : m ∈ matched) (hne : sanitizedId m ≠ "") :
    sanitizedId m ∈ activeGrafanaAlertIds matched := by
  apply List.mem_filterMap.2
  refine ⟨m, hm, ?_⟩
  show (if sanitizedId m = "" then none else some (sanitizedId m)) =
    some (sanitizedId m)
  rw [if_neg hne]

/-- A row written by the merge for a bound match result is untouched by
the orphan refresh (re-applying the same JSM data is absorbing). -/
theorem orphanRow_merged (js : List JsmAlert) (now : Int) (m : MatchInfo)
    (y : Alert) (hjnd : (js.map (fun j => j.id)).Nodup)
    (hbmem : ∀ b, m.jsm_alert = some b → b ∈ js)
    (hy : (∃ x, y = applyMatch now m x) ∨ y = createOf now m) :
    orphanRow js now y = y := by
  rcases hjm : m.jsm_alert with _ | b
  · have hid : y.jsm_alert_id = none := by
      rcases hy with ⟨x, rfl⟩ | rfl
      · exact applyMatch_jsmid_none now m x hjm
      · exact createOf_jsmid_none now m hjm
    exact orphanRow_eq_of_none js now y hid
  · have hb := hbmem b hjm
    have hid : y.jsm_alert_id = some b.id := by
      rcases hy with ⟨x, rfl⟩ | rfl
      · exact (applyMatch_some_proj now m x b hjm).1
      · exact (createOf_some_proj now m b hjm).1
    have hmt : y.match_type = some m.match_type := by
      rcases hy with ⟨x, rfl⟩ | rfl
      · exact (applyMatch_some_proj now m x b hjm).2.1
      · exact (createOf_some_proj now m b hjm).2.1
    have hmc : y.match_confidence = some m.match_confidence := by
      rcases hy with ⟨x, rfl⟩ | rfl
      · exact (applyMatch_some_proj now m x b hjm).2.2
      · exact (createOf_some_proj now m b hjm).2.2
    rw [orphanRow_eq_of_found js now y b.id b hid (jsmById_self js b hjnd hb),
      hmt, hmc]
    rcases hy with ⟨x, rfl⟩ | rfl
    · unfold applyMatch _update_existing_alert
      rw [hjm]
      exact jsmW_idem _ _ _ _ _
    · unfold createOf _create_new_alert
      rw [hjm]
      exact jsmW_idem _ _ _ _ _

theorem resolve_output_not_stale (activeIds : List String)
    (closeOk : String → Bool) (now : Int) (s : List Alert) :
    ∀ a ∈ s.map (resolveRow activeIds closeOk now),
      a.grafana_status = "active" → a.alert_id ∈ activeIds := by
  intro a ha hact
  obtain ⟨x, hx, rfl⟩ := List.mem_map.1 ha
  by_cases hs : shouldResolve activeIds x = true
  · exfalso
    have hres : (resolveRow activeIds closeOk now x).grafana_status =
        "resolved" := by
      unfold resolveRow
      rw [if_pos hs]
      simp
    rw [hres] at hact
    exact absurd hact (by decide)
  · have heq : resolveRow activeIds closeOk now x = x :=
      resolveRow_skip activeIds closeOk now x (Bool.not_eq_true _ ▸ hs)
    rw [heq] at hact ⊢
    simpa [shouldResolve, hact] using hs

theorem orphan_not_stale (js : List JsmAlert) (now : Int)
    (activeIds : List String) (s : List Alert)
    (h : ∀ a ∈ s, a.grafana_status = "active" → a.alert_id ∈ activeIds) :
    ∀ a ∈ _update_orphaned_jsm_alerts js now s,
      a.grafana_status = "active" → a.alert_id ∈ activeIds := by
  intro a ha hact
  obtain ⟨x, hx, rfl⟩ := List.mem_map.1 ha
  rw [orphanRow_grafana_status js now x] at hact
  rw [orphanRow_alert_id]
  exact h x hx hact

theorem matched_bound_mem (thr : Nat) (js : List JsmAlert)
    (gs : List GrafanaAlert) (m : MatchInfo)
    (hm : m ∈ match_grafana_with_jsm thr gs js) (b : JsmAlert)
    (hb : m.jsm_alert = some b) : b ∈ js := by
  rcases matchAux_mem_spec thr js gs [] m hm with ⟨hn, _, _⟩ | ⟨b0, hb0, hmem, _, _, _⟩
  · rw [hn] at hb
    exact absurd hb (by simp)
  · rw [hb0] at hb
    obtain rfl : b0 = b := by simpa using hb
    exact hmem

theorem matched_ids_eq (thr : Nat) (js : List JsmAlert)
    (gs : List GrafanaAlert) :
    (match_grafana_with_jsm thr gs js).map sanitizedId =
      gs.map (fun g => (_sanitize_alert_data g).alert_id) := by
  have h := matchAux_map_grafana thr js gs []
  calc (match_grafana_with_jsm thr gs js).map sanitizedId
      = ((matchAux thr js gs []).map (fun m => m.grafana_alert)).map
          (fun g => (_sanitize_alert_data g).alert_id) := by
        rw [List.map_map]
        rfl
    _ = gs.map (fun g => (_sanitize_alert_data g).alert_id) := by rw [h]

/-- C7 — idempotence.  With identifier uniqueness as the data model
states it (unique RecordA ids among the fetched records, unique RecordB
ids, unique store keys), re-running a pass on its own committed output,
with the same upstream fetch results, writes back exactly the same
store and attempts no close() calls. -/
theorem C7_idempotent (thr : Nat) (now : Int) (gs : List GrafanaAlert)
    (js : List JsmAlert) (closeOk : String → Bool) (store : List Alert)
    (hstore : (store.map (fun a => a.alert_id)).Nodup)
    (hg : ((gs.filter (fun g => ¬ _is_non_prod_alert g)).map
        (fun g => (_sanitize_alert_data g).alert_id)).Nodup)
    (hj : (js.map (fun j => j.id)).Nodup) :
    sync_alerts thr now (Except.ok gs) (Except.ok js) closeOk
        (syncStore thr now gs js closeOk store) =
      Except.ok (syncStore thr now gs js closeOk store, []) := by
  set M := match_grafana_with_jsm thr
    (gs.filter (fun g => ¬ _is_non_prod_alert g)) js with hM
  set I := activeGrafanaAlertIds M with hI
  set S1 := mergeAll now M store with hS1
  set S2 := (_mark_resolved_alerts I closeOk now S1).1 with hS2
  set S3 := _update_orphaned_jsm_alerts js now S2 with hS3
  have hsync : syncStore thr now gs js closeOk store = S3 := rfl
  rw [hsync]
  have hmnd : (M.map sanitizedId).Nodup := by
    rw [hM, matched_ids_eq]
    exact hg
  -- no row of S3 is both active and outside the active-id set
  have hstale3 : ∀ a ∈ S3, a.grafana_status = "active" → a.alert_id ∈ I := by
    apply orphan_not_stale
    exact resolve_output_not_stale I closeOk now S1
  -- every matched identifier keys exactly one, merge-stable, row of S3
  have hkey : ∀ m ∈ M, sanitizedId m ≠ "" →
      ∃ y, S3.filter (fun a => a.alert_id = sanitizedId m) = [y] ∧
        applyMatch now m y = y := by
    intro m hm hne
    obtain ⟨y, hy1, hy2⟩ := mergeAll_filter_key now M store m hm hmnd hne hstore
    rw [← hS1] at hy1
    have hyst : y.grafana_status = "active" := by
      rcases hy2 with ⟨x, rfl⟩ | rfl <;> simp
    have hymem : y ∈ S1.filter (fun a => a.alert_id = sanitizedId m) := by
      rw [hy1]
      exact List.mem_cons_self y []
    have hyid : y.alert_id = sanitizedId m := by
      simpa using (List.mem_filter.1 hymem).2
    have hrs : resolveRow I closeOk now y = y := by
      apply resolveRow_skip
      apply shouldResolve_false_of_mem
      rw [hyid]
      exact mem_activeIds M m hm hne
    have h2 : S2.filter (fun a => a.alert_id = sanitizedId m) = [y] := by
      rw [hS2]
      show ((S1.map (resolveRow I closeOk now)).filter
        (fun a => a.alert_id = sanitizedId m)) = [y]
      rw [filter_map_by_id _ (resolveRow_alert_id I closeOk now) _ S1]
      rw [hy1, List.map_cons, List.map_nil, hrs]
    have hor : orphanRow js now y = y :=
      orphanRow_merged js now m y hj
        (fun b hb => matched_bound_mem thr js _ m (hM ▸ hm) b hb) hy2
    have h3 : S3.filter (fun a => a.alert_id = sanitizedId m) = [y] := by
      rw [hS3]
      show ((S2.map (orphanRow js now)).filter
        (fun a => a.alert_id = sanitizedId m)) = [y]
      rw [filter_map_by_id _ (orphanRow_alert_id js now) _ S2, h2,
        List.map_cons, List.map_nil, hor]
    refine ⟨y, h3, ?_⟩
    rcases hy2 with ⟨x, rfl⟩ | rfl
    · exact applyMatch_idem now m x
    · exact applyMatch_createOf now m
  -- the second merge is the identity
  have hmfix : mergeAll now M S3 = S3 := by
    apply mergeAll_fix
    intro m hm
    by_cases hne : sanitizedId m = ""
    · exact Or.inl hne
    · obtain ⟨y, hy, hstab⟩ := hkey m hm hne
      right
      have hymem : y ∈ S3 ∧ y.alert_id = sanitizedId m := by
        have hmem : y ∈ S3.filter (fun a => a.alert_id = sanitizedId m) := by
          rw [hy]
          exact List.mem_cons_self y []
        have h := List.mem_filter.1 hmem
        exact ⟨h.1, by simpa using h.2⟩
      constructor
      · exact List.any_eq_true.2 ⟨y, hymem.1, by simpa using hymem.2⟩
      · intro a ha haid
        have hamem : a ∈ S3.filter (fun x => x.alert_id = sanitizedId m) :=
          List.mem_filter.2 ⟨ha, by simpa using haid⟩
        rw [hy] at hamem
        obtain rfl : a = y := by simpa using hamem
        exact hstab
  -- the second resolve pass changes nothing and attempts nothing
  have hrfix : _mark_resolved_alerts I closeOk now S3 = (S3, []) := by
    apply mark_resolved_noop
    intro a ha
    by_cases hact : a.grafana_status = "active"
    · exact shouldResolve_false_of_mem I a (hstale3 a ha hact)
    · simp [shouldResolve, hact]
  -- the second orphan pass changes nothing
  have hofix : _update_orphaned_jsm_alerts js now S3 = S3 := by
    rw [hS3]
    exact orphan_idem js now S2
  have hunf : sync_alerts thr now (Except.ok gs) (Except.ok js) closeOk S3 =
      Except.ok (_update_orphaned_jsm_alerts js now
          (_mark_resolved_alerts I closeOk now (mergeAll now M S3)).1,
        (_mark_resolved_alerts I closeOk now (mergeAll now M S3)).2) := rfl
  rw [hunf, hmfix, hrfix]
  simp [hofix]

/-- C7 — witness: a concrete pass over a one-row store with one fetched
Grafana alert re-runs to exactly the same store with no close()
attempts. -/
theorem C7_witness :
    (([c5row].map (fun a => a.alert_id)).Nodup) ∧
    ((([c1g].filter (fun g => ¬ _is_non_prod_alert g)).map
        (fun g => (_sanitize_alert_data g).alert_id)).Nodup) ∧
    ((([] : List JsmAlert).map (fun j => j.id)).Nodup) ∧
    sync_alerts 30 5 (Except.ok [c1g]) (Except.ok ([] : List JsmAlert))
        (fun _ => false) (syncStore 30 5 [c1g] [] (fun _ => false) [c5row]) =
      Except.ok (syncStore 30 5 [c1g] [] (fun _ => false) [c5row], []) :=
  ⟨by decide, by decide, by decide,
   C7_idempotent 30 5 [c1g] [] (fun _ => false) [c5row]
     (by decide) (by decide) (by decide)⟩

end AlertManager
